import Mathlib

/-!
Verification development for the MME-side EPS Attach procedure
(NAS/EMM/Attach.c of the openair4g EPC NAS stack).

The definitions below are a shallow embedding of Attach.c.  The embedding
follows the build in which NAS_BUILT_IN_EPC is defined (the EPC build: the
context store is the hash-table collection, GUTI rebinding is active, the
authentication-vector fetch goes through nas_itti_auth_info_req) and in which
ORIGINAL_CODE is not defined (so the block guarded by `#if ORIGINAL_CODE`
inside `_emm_attach` is compiled out).  Machine integers are modelled as
Nat/Int; C pointers that may be NULL are modelled as Option; C structures
become Lean structures; external calls (emm_sap_send, esm_sap_send, the
mme_api functions, the timer service) are modelled by an environment record
supplying their return values, and every outgoing call is recorded in an
event trace.  Leading underscores of C static functions are dropped in the
Lean names (`_emm_attach_reject` becomes `emm_attach_reject`, and so on);
`emm_proc_attach_reject`, the exported function, keeps its own name.
-/

namespace Attach

/-- RETURNok / RETURNerror of the NAS stack. -/
inductive Status where
  | ok
  | error
deriving DecidableEq, Repr

/-- ESM SAP result codes; the source compares against ESM_SAP_SUCCESS and
ESM_SAP_DISCARDED, any other value being a failure. -/
inductive EsmSapErr where
  | success
  | discarded
  | failed
deriving DecidableEq, Repr

/-- OctetString of the NAS stack: an explicit length together with the bytes
(the source keeps `length` and `value` as separate fields and tests
`length > 0`). -/
structure OctetString where
  length : Nat
  value : List Nat
deriving DecidableEq, Repr

/-- The empty OctetString (length 0, NULL value). -/
def OctetString.empty : OctetString := ⟨0, []⟩

/-- PLMN digits of a GUMMEI (three MCC digits, three MNC digits). -/
structure Plmn where
  MCCdigit1 : Nat
  MCCdigit2 : Nat
  MCCdigit3 : Nat
  MNCdigit1 : Nat
  MNCdigit2 : Nat
  MNCdigit3 : Nat
deriving DecidableEq, Repr

/-- GUMMEI: PLMN + MME group id + MME code. -/
structure Gummei where
  plmn : Plmn
  MMEgid : Nat
  MMEcode : Nat
deriving DecidableEq, Repr

/-- GUTI: GUMMEI + M-TMSI (a 32-bit value). -/
structure GUTI where
  gummei : Gummei
  m_tmsi : Nat
deriving DecidableEq, Repr

/-- IMSI.  The source accesses the first six BCD digits
(imsi->u.num.digit1 .. digit6) for GUTI synthesis and compares whole
structures with memcmp; the remaining representation octets are kept in
`rest` so that structure equality coincides with octet-wise equality. -/
structure Imsi where
  digit1 : Nat
  digit2 : Nat
  digit3 : Nat
  digit4 : Nat
  digit5 : Nat
  digit6 : Nat
  rest : List Nat
deriving DecidableEq, Repr

/-- IMEI, compared only with memcmp in Attach.c: modelled by its
representation octets, so structure equality is octet-wise equality. -/
structure Imei where
  octets : List Nat
deriving DecidableEq, Repr

/-- EPS attach type (EMM_ATTACH_TYPE_...). -/
inductive AttachType where
  | eps
  | imsi
  | emergency
  | reserved
deriving DecidableEq, Repr

/-- EMM FSM states, in the order the specification lists them
(EMM_INVALID = 0, EMM_DEREGISTERED = 1, ...); Attach.c only compares a
state against EMM_DEREGISTERED with `>`. -/
inductive EmmFsmStatus where
  | INVALID
  | DEREGISTERED
  | REGISTERED_INITIATED
  | REGISTERED
  | DEREGISTERED_INITIATED
  | COMMON_PROCEDURE_INITIATED
deriving DecidableEq, Repr

/-- Numeric value of an FSM state, following the listed enum order. -/
def EmmFsmStatus.toNat : EmmFsmStatus → Nat
  | .INVALID => 0
  | .DEREGISTERED => 1
  | .REGISTERED_INITIATED => 2
  | .REGISTERED => 3
  | .DEREGISTERED_INITIATED => 4
  | .COMMON_PROCEDURE_INITIATED => 5

/-- EMM cause codes used by Attach.c.  Only their distinctness matters to the
control flow; the numeric values follow TS 24.301 (with the internal SUCCESS
sentinel at 0). -/
def EMM_CAUSE_SUCCESS : Nat := 0
def EMM_CAUSE_ILLEGAL_UE : Nat := 3
def EMM_CAUSE_IMEI_NOT_ACCEPTED : Nat := 5
def EMM_CAUSE_ESM_FAILURE : Nat := 19
def EMM_CAUSE_PROTOCOL_ERROR : Nat := 111

/-- Retransmission bound of T3450 (ATTACH_COUNTER_MAX in Attach.c). -/
def ATTACH_COUNTER_MAX : Nat := 5

/-- Inactive timer handle sentinel (NAS_TIMER_INACTIVE_ID = -1). -/
def NAS_TIMER_INACTIVE_ID : Int := -1

/-- A NAS timer record: handle and duration in seconds. -/
structure NasTimer where
  id : Int
  sec : Nat
deriving DecidableEq, Repr

/-- NAS security context.  Attach.c only tests its presence, zero-initializes
it with type KSI_NOT_AVAILABLE and default algorithms EEA0/EIA0, and copies
the selected algorithm identifiers into the establish primitive; the key
material it releases is storage only and is elided from the value model. -/
structure SecurityContext where
  typ : Nat
  encryption : Nat
  integrity : Nat
deriving DecidableEq, Repr

/-- EMM_KSI_NOT_AVAILABLE marker for a fresh security context. -/
def EMM_KSI_NOT_AVAILABLE : Nat := 7
/-- NAS_SECURITY_ALGORITHMS_EEA0. -/
def NAS_SECURITY_ALGORITHMS_EEA0 : Nat := 0
/-- NAS_SECURITY_ALGORITHMS_EIA0. -/
def NAS_SECURITY_ALGORITHMS_EIA0 : Nat := 0

/-- The per-UE EMM context (emm_data_context_t), restricted to the fields
Attach.c reads or writes. -/
structure EmmContext where
  ueid : Nat
  is_dynamic : Bool
  guti : Option GUTI
  old_guti : Option GUTI
  guti_is_new : Bool
  imsi : Option Imsi
  imei : Option Imei
  security : Option SecurityContext
  esm_msg : OctetString
  emm_cause : Nat
  fsm_status : EmmFsmStatus
  is_attached : Bool
  is_emergency : Bool
  ksi : Int
  eea : Int
  eia : Int
  ucs2 : Int
  uea : Int
  uia : Int
  gea : Int
  umts_present : Int
  gprs_present : Int
  tac : Nat
  n_tacs : Nat
  T3450 : NasTimer
  T3460 : NasTimer
  T3470 : NasTimer
deriving DecidableEq, Repr

/-
   --------------------------------------------------------------------------
   Parameter-change detector: _emm_attach_have_changed
   --------------------------------------------------------------------------
   The C function is a chain of early `return TRUE` tests falling through to
   `return FALSE`.  Each early return becomes an if-branch yielding `true`.
   The three checks guarded by `(ctx->umts_present) && (umts_present)` and the
   one guarded by `(ctx->gprs_present) && (gprs_present)` are flattened into
   guards with explicit conjunctions, which is semantics-preserving because
   each guarded test returns TRUE immediately.  The identity tail (GUTI, IMSI,
   IMEI blocks) is split into helper functions mirroring the three blocks.
-/

/-- IMEI block of _emm_attach_have_changed: presence asymmetry is a change,
and with both present memcmp over the whole structure decides. -/
def emm_attach_have_changed_imei (imei : Option Imei) (ctx_imei : Option Imei) : Bool :=
  match imei, ctx_imei with
  | some _, none => true
  | none, some _ => true
  | some i, some ci => if i ≠ ci then true else false
  | none, none => false

/-- IMSI block of _emm_attach_have_changed, falling through to the IMEI
block. -/
def emm_attach_have_changed_imsi (imsi : Option Imsi) (imei : Option Imei)
    (ctx : EmmContext) : Bool :=
  match imsi, ctx.imsi with
  | some _, none => true
  | none, some _ => true
  | some i, some ci =>
      if i ≠ ci then true else emm_attach_have_changed_imei imei ctx.imei
  | none, none => emm_attach_have_changed_imei imei ctx.imei

/-- GUTI block of _emm_attach_have_changed: presence asymmetry is a change;
with both present the m_tmsi and then every GUMMEI digit are compared;
otherwise fall through to the IMSI block. -/
def emm_attach_have_changed_guti (guti : Option GUTI) (imsi : Option Imsi)
    (imei : Option Imei) (ctx : EmmContext) : Bool :=
  match guti, ctx.guti with
  | some _, none => true
  | none, some _ => true
  | some g, some cg =>
      if g.m_tmsi ≠ cg.m_tmsi then true
      else if g.gummei.MMEcode ≠ cg.gummei.MMEcode ∨
              g.gummei.MMEgid ≠ cg.gummei.MMEgid ∨
              g.gummei.plmn.MCCdigit1 ≠ cg.gummei.plmn.MCCdigit1 ∨
              g.gummei.plmn.MCCdigit2 ≠ cg.gummei.plmn.MCCdigit2 ∨
              g.gummei.plmn.MCCdigit3 ≠ cg.gummei.plmn.MCCdigit3 ∨
              g.gummei.plmn.MNCdigit1 ≠ cg.gummei.plmn.MNCdigit1 ∨
              g.gummei.plmn.MNCdigit2 ≠ cg.gummei.plmn.MNCdigit2 ∨
              g.gummei.plmn.MNCdigit3 ≠ cg.gummei.plmn.MNCdigit3 then true
      else emm_attach_have_changed_imsi imsi imei ctx
  | none, none => emm_attach_have_changed_imsi imsi imei ctx

/-- _emm_attach_have_changed: TRUE iff at least one attach parameter differs
from the stored context. -/
def emm_attach_have_changed (ctx : EmmContext) (type : AttachType) (ksi : Int)
    (guti : Option GUTI) (imsi : Option Imsi) (imei : Option Imei)
    (eea eia ucs2 uea uia gea umts_present gprs_present : Int) : Bool :=
  if (decide (type = AttachType.emergency)) ≠ ctx.is_emergency then true
  else if ksi ≠ ctx.ksi then true
  else if eea ≠ ctx.eea then true
  else if eia ≠ ctx.eia then true
  else if umts_present ≠ ctx.umts_present then true
  else if ctx.umts_present ≠ 0 ∧ umts_present ≠ 0 ∧ ucs2 ≠ ctx.ucs2 then true
  else if ctx.umts_present ≠ 0 ∧ umts_present ≠ 0 ∧ uea ≠ ctx.uea then true
  else if ctx.umts_present ≠ 0 ∧ umts_present ≠ 0 ∧ uia ≠ ctx.uia then true
  else if gprs_present ≠ ctx.gprs_present then true
  else if ctx.gprs_present ≠ 0 ∧ gprs_present ≠ 0 ∧ gea ≠ ctx.gea then true
  else emm_attach_have_changed_guti guti imsi imei ctx

/-
   --------------------------------------------------------------------------
   Spec-side characterizations of the parameter-change detector (written
   from the specification's words, for comparison with the code above)
   --------------------------------------------------------------------------
-/

/-- Spec: GUTI is equal iff both the m_tmsi and every digit of the embedded
GUMMEI (MMEcode, MMEgid, MCC123, MNC123) match. -/
def gutiEqSpec (g cg : GUTI) : Prop :=
  g.m_tmsi = cg.m_tmsi ∧ g.gummei.MMEcode = cg.gummei.MMEcode ∧
  g.gummei.MMEgid = cg.gummei.MMEgid ∧
  g.gummei.plmn.MCCdigit1 = cg.gummei.plmn.MCCdigit1 ∧
  g.gummei.plmn.MCCdigit2 = cg.gummei.plmn.MCCdigit2 ∧
  g.gummei.plmn.MCCdigit3 = cg.gummei.plmn.MCCdigit3 ∧
  g.gummei.plmn.MNCdigit1 = cg.gummei.plmn.MNCdigit1 ∧
  g.gummei.plmn.MNCdigit2 = cg.gummei.plmn.MNCdigit2 ∧
  g.gummei.plmn.MNCdigit3 = cg.gummei.plmn.MNCdigit3

/-- Spec: the GUTI comparison counts presence-asymmetry as changed, and with
both present a change is any failure of `gutiEqSpec`. -/
def gutiChangedSpec : Option GUTI → Option GUTI → Prop
  | some _, none => True
  | none, some _ => True
  | some g, some cg => ¬ gutiEqSpec g cg
  | none, none => False

/-- Spec: IMSI comparison is octet-wise with presence-asymmetry as changed. -/
def imsiChangedSpec : Option Imsi → Option Imsi → Prop
  | some _, none => True
  | none, some _ => True
  | some i, some ci => i ≠ ci
  | none, none => False

/-- Spec: IMEI comparison is octet-wise with presence-asymmetry as changed. -/
def imeiChangedSpec : Option Imei → Option Imei → Prop
  | some _, none => True
  | none, some _ => True
  | some i, some ci => i ≠ ci
  | none, none => False

/-
   --------------------------------------------------------------------------
   Retransmission data, outgoing events and the external environment
   --------------------------------------------------------------------------
-/

/-- attach_data_t: parameters of the T3450 retransmission callback. -/
structure AttachData where
  ueid : Nat
  retransmission_count : Nat
  esm_msg : OctetString
deriving DecidableEq, Repr

/-- Identity of the ongoing-procedure abort callback that Attach.c registers
with emm_proc_common_initialize. -/
inductive CommonCb where
  | attach_abort
deriving DecidableEq, Repr

/-- Every outgoing call of Attach.c, recorded in order of emission: the
EMM-SAP and ESM-SAP primitives, the mme_api notifications and identity
requests, the common-procedure registration, the timer operations, the
context-store operations and the GUTI-index operations, and the frees of
retransmission data. -/
inductive Prim where
  | emmas_establish_cnf (ueid : Nat) (ueid_guti : Option GUTI)
      (new_guti : Option GUTI) (n_tacs : Nat) (tac : Nat)
      (sec : Option SecurityContext) (nas_msg : OctetString)
  | emmas_establish_rej (ueid : Nat) (emm_cause : Nat) (nas_msg : OctetString)
  | emmreg_proc_abort (ueid : Nat)
  | emmreg_attach_cnf (ueid : Nat)
  | emmreg_attach_rej (ueid : Nat)
  | emmreg_common_proc_req (ueid : Nat)
  | esm_pdn_connectivity_req (ueid : Nat) (recv : OctetString)
  | esm_pdn_connectivity_rej (ueid : Nat)
  | esm_default_eps_bearer_context_activate_cnf (ueid : Nat)
      (recv : OctetString)
  | mme_api_notify_ue_id_changed (oldId newId : Nat)
  | mme_api_notify_new_guti (ueid : Nat) (guti : Option GUTI)
  | mme_api_identify_imsi_call (imsi : Imsi)
  | mme_api_identify_guti_call (guti : GUTI)
  | mme_api_identify_imei_call (imei : Imei)
  | mme_api_new_guti_call (imsi : Option Imsi)
  | nas_itti_auth_info_req_call (ueid : Nat) (imsi : Imsi)
  | emm_proc_identification_call (ueid : Nat)
  | emm_proc_security_mode_control_call (ueid : Nat)
  | emm_proc_common_register (ueid : Nat) (abort_cb : CommonCb)
  | timer_start (sec : Nat)
  | timer_restart (id : Int)
  | timer_stop (id : Int)
  | store_remove (ueid : Nat)
  | store_add (ueid : Nat) (ctx : EmmContext)
  | guti_index_insert (guti : GUTI) (ueid : Nat)
  | guti_index_remove (guti : GUTI)
  | attach_data_free (ueid : Nat)
deriving DecidableEq, Repr

/-- Result of esm_sap_send: the return code, the err field of the esm_sap
structure, and the outbound PDU left in esm_sap.send. -/
structure EsmRes where
  rc : Status
  err : EsmSapErr
  send : OctetString
deriving DecidableEq, Repr

/-- Result of mme_api_new_guti: return code and the out-parameters guti, tac
and n_tacs. -/
structure NewGutiRes where
  rc : Status
  guti : GUTI
  tac : Nat
  n_tacs : Nat
deriving DecidableEq, Repr

/-- The external environment: return values of every outside call Attach.c
makes.  emm_sap_send and esm_sap_send may answer differently depending on
the primitive sent. -/
structure Env where
  emm_sap_send : Prim → Status
  esm_sap_send : Prim → EsmRes
  identify_imsi_rc : Status
  identify_guti_rc : Status
  identify_imei_rc : Status
  new_guti_res : NewGutiRes
  identification_rc : Status
  smc_rc : Status
  common_register_rc : Status
  timer_start_id : Int
  timer_restart_id : Int → Int

/-- The MME configuration fields Attach.c reads (_emm_data.conf.features,
mme_config.gummei, mme_config_find_mnc_length). -/
structure MmeConfig where
  emergency_attach : Bool
  unauth_imsi : Bool
  gummei_mmec0 : Nat
  gummei_mme_gid0 : Nat
  gummei_plmn_tac0 : Nat
  find_mnc_length : Nat → Nat → Nat → Nat → Nat → Nat → Int

/-- Default timer durations (seconds); the exact values are irrelevant to the
claims. -/
def T3450_DEFAULT_VALUE : Nat := 6
def T3460_DEFAULT_VALUE : Nat := 6
def T3470_DEFAULT_VALUE : Nat := 6

/-
   --------------------------------------------------------------------------
   The EMM context store (_emm_data under NAS_BUILT_IN_EPC)
   --------------------------------------------------------------------------
-/

/-- The EMM data store: the context collection keyed by ue_id and the GUTI
index ctx_coll_guti mapping a GUTI to a ue_id. -/
structure EmmData where
  ctxs : List (Nat × EmmContext)
  gutis : List (GUTI × Nat)
deriving DecidableEq, Repr

/-- emm_data_context_get: look a context up by ue_id. -/
def emm_data_context_get (d : EmmData) (ueid : Nat) : Option EmmContext :=
  (d.ctxs.find? (fun p => p.1 == ueid)).map Prod.snd

/-- emm_data_context_get_by_guti: resolve a GUTI through the GUTI index and
then look the context up by the recorded ue_id. -/
def emm_data_context_get_by_guti (d : EmmData) (g : GUTI) : Option EmmContext :=
  match d.gutis.find? (fun p => p.1 == g) with
  | some p => emm_data_context_get d p.2
  | none => none

/-- Modelled from the spec: `emm_data_context_add` lives in the EPC context
store (emmData, not under src/); per §4.1 "insert is a no-op if a context
with that ue_id already exists", and per §3 an entry appears in the GUTI
index iff the context's guti is set. -/
def emm_data_context_add (d : EmmData) (ctx : EmmContext) : EmmData :=
  if (emm_data_context_get d ctx.ueid).isSome then d
  else
    { ctxs := (ctx.ueid, ctx) :: d.ctxs
      gutis := match ctx.guti with
               | some g => (g, ctx.ueid) :: d.gutis
               | none => d.gutis }

/-- Modelled from the spec: `emm_data_context_remove` (EPC context store, not
under src/); per §4.1 remove destroys the context and both index entries. -/
def emm_data_context_remove (d : EmmData) (ctx : EmmContext) : EmmData :=
  { ctxs := d.ctxs.filter (fun p => !(p.1 == ctx.ueid))
    gutis := match ctx.guti with
             | some g => d.gutis.filter (fun p => !(p.1 == g))
             | none => d.gutis }

/-- obj_hashtable_insert on _emm_data.ctx_coll_guti. -/
def guti_index_insert_op (d : EmmData) (g : GUTI) (ueid : Nat) : EmmData :=
  { d with gutis := (g, ueid) :: d.gutis }

/-- obj_hashtable_remove on _emm_data.ctx_coll_guti. -/
def guti_index_remove_op (d : EmmData) (g : GUTI) : EmmData :=
  { d with gutis := d.gutis.filter (fun p => !(p.1 == g)) }

/-- Write an in-place context mutation back into the store.  The source
mutates heap objects through pointers obtained from store lookups, so a
mutation of such a context is immediately visible in the store; the value
model makes this explicit by replacing the entry with the same ue_id. -/
def emm_data_sync (d : EmmData) (ctx : EmmContext) : EmmData :=
  { d with ctxs := d.ctxs.map (fun p => if p.1 == ctx.ueid then (p.1, ctx) else p) }

/-- A memset-zeroed emm_data_context_t with the given ue_id, as built on the
stack by emm_proc_attach_request and emm_proc_attach_reject (is_dynamic is
then set to FALSE, which zero already is). -/
def EmmContext.zeroed (ueid : Nat) : EmmContext :=
  { ueid := ueid, is_dynamic := false, guti := none, old_guti := none
    guti_is_new := false, imsi := none, imei := none, security := none
    esm_msg := OctetString.empty, emm_cause := EMM_CAUSE_SUCCESS
    fsm_status := EmmFsmStatus.INVALID, is_attached := false
    is_emergency := false, ksi := 0, eea := 0, eia := 0, ucs2 := 0, uea := 0
    uia := 0, gea := 0, umts_present := 0, gprs_present := 0, tac := 0
    n_tacs := 0, T3450 := ⟨0, 0⟩, T3460 := ⟨0, 0⟩, T3470 := ⟨0, 0⟩ }

/-- An all-zero GUTI_t, as produced by calloc in _emm_attach_update. -/
def GUTI.zeroed : GUTI := ⟨⟨⟨0, 0, 0, 0, 0, 0⟩, 0, 0⟩, 0⟩

/-- The dynamic EMM context freshly created by emm_proc_attach_request
(calloc zero-fill followed by the explicit field initialization of lines
375-395, and emm_fsm_set_status to EMM_DEREGISTERED). -/
def EmmContext.fresh (ueid : Nat) : EmmContext :=
  { EmmContext.zeroed ueid with
    is_dynamic := true
    fsm_status := EmmFsmStatus.DEREGISTERED
    T3450 := ⟨NAS_TIMER_INACTIVE_ID, T3450_DEFAULT_VALUE⟩
    T3460 := ⟨NAS_TIMER_INACTIVE_ID, T3460_DEFAULT_VALUE⟩
    T3470 := ⟨NAS_TIMER_INACTIVE_ID, T3470_DEFAULT_VALUE⟩ }

/-- Modelled from the spec: the EMM-REG dispatcher receiving
EMMREG_PROC_ABORT (emm_sap_send and the EMM-REG FSM are repository code not
under src/).  Per §4.4 step 3 and the change-restart law of §8 the abort
leaves the context cleared, so the re-entered attach no longer finds it
above DEREGISTERED: the effect is modelled as setting the FSM status to
EMM_DEREGISTERED. -/
def emm_reg_proc_abort_effect (ctx : EmmContext) : EmmContext :=
  { ctx with fsm_status := EmmFsmStatus.DEREGISTERED }

/-- ORIGINAL_CODE is not defined by the build: the block it guards inside
_emm_attach is compiled out. -/
def ORIGINAL_CODE : Bool := false

/-
   --------------------------------------------------------------------------
   Abnormal cases: _emm_attach_release, _emm_attach_reject,
   emm_proc_attach_reject
   --------------------------------------------------------------------------
-/

/-- _emm_attach_release: frees the identity fields, ESM buffer and security
keys (storage only in the value model), stops whichever of T3450/T3460/T3470
is running, removes the context from the store and notifies EMM with
EMMREG_PROC_ABORT.  Returns emm_sap_send's status, the updated store and the
trace. -/
def emm_attach_release (d : EmmData) (ctx : EmmContext) (env : Env) :
    Status × EmmData × List Prim :=
  let trT : List Prim :=
    (if ctx.T3450.id ≠ NAS_TIMER_INACTIVE_ID then [Prim.timer_stop ctx.T3450.id] else []) ++
    (if ctx.T3460.id ≠ NAS_TIMER_INACTIVE_ID then [Prim.timer_stop ctx.T3460.id] else []) ++
    (if ctx.T3470.id ≠ NAS_TIMER_INACTIVE_ID then [Prim.timer_stop ctx.T3470.id] else [])
  let d1 := emm_data_context_remove d ctx
  let p := Prim.emmreg_proc_abort ctx.ueid
  (env.emm_sap_send p, d1, trT ++ [Prim.store_remove ctx.ueid, p])

/-- _emm_attach_reject: defaults a SUCCESS cause to ILLEGAL_UE, selects the
NAS payload (empty unless the cause is ESM_FAILURE, in which case a
non-empty esm_msg is required and an empty one makes the function return
RETURNerror immediately, before anything is sent), emits EMMAS_ESTABLISH_REJ
and finally releases the context iff it is dynamic.  The returned context is
none when it was released. -/
def emm_attach_reject (d : EmmData) (ctx : EmmContext) (env : Env) :
    Status × EmmData × Option EmmContext × List Prim :=
  let ctx1 := if ctx.emm_cause = EMM_CAUSE_SUCCESS then
                { ctx with emm_cause := EMM_CAUSE_ILLEGAL_UE }
              else ctx
  let nas_msg : Option OctetString :=
    if ctx1.emm_cause ≠ EMM_CAUSE_ESM_FAILURE then some OctetString.empty
    else if ctx1.esm_msg.length > 0 then some ctx1.esm_msg
    else none
  match nas_msg with
  | none =>
      -- "ESM message is missing": LOG_FUNC_RETURN (RETURNerror)
      (Status.error, d, some ctx1, [])
  | some m =>
      let rej := Prim.emmas_establish_rej ctx1.ueid ctx1.emm_cause m
      let rc := env.emm_sap_send rej
      if ctx1.is_dynamic then
        let r := emm_attach_release d ctx1 env
        (r.1, r.2.1, none, rej :: r.2.2)
      else
        (rc, d, some ctx1, [rej])

/-- emm_proc_attach_reject: builds a static stack context carrying the cause
(defaulting to ILLEGAL_UE when the ue_id is not positive, the
NAS_BUILT_IN_EPC validity test) and runs _emm_attach_reject on it. -/
def emm_proc_attach_reject (d : EmmData) (ueid : Nat) (emm_cause : Nat)
    (env : Env) : Status × EmmData × List Prim :=
  let ue_ctx := { EmmContext.zeroed ueid with
                  emm_cause := if ueid > 0 then emm_cause
                               else EMM_CAUSE_ILLEGAL_UE }
  let r := emm_attach_reject d ue_ctx env
  (r.1, r.2.1, r.2.2.2)

/-
   --------------------------------------------------------------------------
   ATTACH ACCEPT transmission and the T3450 machinery
   --------------------------------------------------------------------------
-/

/-- _emm_attach_accept: notifies the EMM-AS SAP that the ATTACH ACCEPT (with
the cached ESM container as NAS payload) has to be sent, after selecting
which GUTI(s) to include (old+new on implicit reallocation; the build's
"TEST LG FORCE GUTI IE" hack forces new_guti to the current GUTI in the
default case as well); notifies the identity mapping of the new GUTI; and on
success arms T3450 (restart if running, start otherwise).  The C function
also copies the selected security algorithms into the primitive; they travel
here inside the sec field. -/
def emm_attach_accept (ctx : EmmContext) (data : AttachData) (env : Env) :
    Status × EmmContext × List Prim :=
  let gutis : Option GUTI × Option GUTI :=
    if ctx.guti_is_new ∧ ctx.old_guti.isSome then (ctx.old_guti, ctx.guti)
    else if ctx.guti_is_new ∧ ctx.guti.isSome then (ctx.guti, ctx.guti)
    else (ctx.guti, ctx.guti)
  let cnf := Prim.emmas_establish_cnf ctx.ueid gutis.1 gutis.2 ctx.n_tacs
               ctx.tac ctx.security data.esm_msg
  let tr := [Prim.mme_api_notify_new_guti ctx.ueid ctx.guti, cnf]
  let rc := env.emm_sap_send cnf
  if rc ≠ Status.error then
    if ctx.T3450.id ≠ NAS_TIMER_INACTIVE_ID then
      (rc, { ctx with T3450 := { ctx.T3450 with id := env.timer_restart_id ctx.T3450.id } },
       tr ++ [Prim.timer_restart ctx.T3450.id])
    else
      (rc, { ctx with T3450 := { ctx.T3450 with id := env.timer_start_id } },
       tr ++ [Prim.timer_start ctx.T3450.sec])
  else (rc, ctx, tr)

/-- _emm_attach_abort: looks the context up, stops a running T3450, frees the
retransmission data, notifies ESM with PDN_CONNECTIVITY_REJ, then (unless
that failed) notifies EMM with EMMREG_ATTACH_REJ, then (unless that failed)
releases the context (when no context was found the release call receives a
NULL pointer and returns RETURNerror). -/
def emm_attach_abort (d : EmmData) (data : AttachData) (env : Env) :
    Status × EmmData × List Prim :=
  let ueid := data.ueid
  let step1 : EmmData × Option EmmContext × List Prim :=
    match emm_data_context_get d ueid with
    | some c =>
        if c.T3450.id ≠ NAS_TIMER_INACTIVE_ID then
          let c1 := { c with T3450 := { c.T3450 with id := NAS_TIMER_INACTIVE_ID } }
          (emm_data_sync d c1, some c1, [Prim.timer_stop c.T3450.id])
        else (d, some c, [])
    | none => (d, none, [])
  let d1 := step1.1
  let tr1 := step1.2.2 ++ [Prim.attach_data_free ueid]
  let rejPrim := Prim.esm_pdn_connectivity_rej ueid
  let res := env.esm_sap_send rejPrim
  if res.rc ≠ Status.error then
    let aRej := Prim.emmreg_attach_rej ueid
    let rc2 := env.emm_sap_send aRej
    if rc2 ≠ Status.error then
      match step1.2.1 with
      | some c =>
          let r := emm_attach_release d1 c env
          (r.1, r.2.1, tr1 ++ [rejPrim, aRej] ++ r.2.2)
      | none => (Status.error, d1, tr1 ++ [rejPrim, aRej])
    else (rc2, d1, tr1 ++ [rejPrim, aRej])
  else (res.rc, d1, tr1 ++ [rejPrim])

/-- _emm_attach_t3450_handler: increments the retransmission counter, looks
the context up, and either retransmits the ATTACH ACCEPT (counter still
below ATTACH_COUNTER_MAX) or aborts the procedure.  When the context lookup
fails on the retransmit path, _emm_attach_accept only logs. -/
def emm_attach_t3450_handler (d : EmmData) (data : AttachData) (env : Env) :
    EmmData × AttachData × List Prim :=
  let data1 := { data with retransmission_count := data.retransmission_count + 1 }
  if data1.retransmission_count < ATTACH_COUNTER_MAX then
    match emm_data_context_get d data1.ueid with
    | some c =>
        let r := emm_attach_accept c data1 env
        (emm_data_sync d r.2.1, data1, r.2.2)
    | none => (d, data1, [])
  else
    let r := emm_attach_abort d data1 env
    (r.2.1, data1, r.2.2)

/-- Iterated T3450 expiries: the traces of n successive expirations of the
handler on the same store and environment, threading the retransmission
data. -/
def t3450_expiries : Nat → EmmData → AttachData → Env →
    EmmData × AttachData × List (List Prim)
  | 0, d, data, _ => (d, data, [])
  | n + 1, d, data, env =>
      let r := emm_attach_t3450_handler d data env
      let rest := t3450_expiries n r.1 r.2.1 env
      (rest.1, rest.2.1, r.2.2 :: rest.2.2)

/-
   --------------------------------------------------------------------------
   Context update: _emm_attach_update
   --------------------------------------------------------------------------
-/

/-- Tail of _emm_attach_update: the IMSI, IMEI and ESM-message sections and
the final clearing of the attachment indicator (every malloc is assumed to
succeed, as the claims only concern those paths). -/
def emm_attach_update_tail (d : EmmData) (ctx : EmmContext)
    (imsi : Option Imsi) (imei : Option Imei) (esm_msg_pP : OctetString)
    (tr : List Prim) : Status × EmmData × EmmContext × List Prim :=
  let ctx1 := match imsi with
              | some i => { ctx with imsi := some i }
              | none => ctx
  let ctx2 := match imei with
              | some i => { ctx1 with imei := some i }
              | none => ctx1
  let ctx3 := if esm_msg_pP.length > 0 then
                { ctx2 with esm_msg := ⟨esm_msg_pP.length, esm_msg_pP.value⟩ }
              else
                { ctx2 with esm_msg := { ctx2.esm_msg with length := esm_msg_pP.length } }
  let ctx4 := { ctx3 with is_attached := false }
  (Status.ok, d, ctx4, tr)

/-- _emm_attach_update: copies the attach parameters into the context,
manages the GUTI and the GUTI index, synthesizes a GUTI from configuration
and the IMSI when the UE supplied none, and ends by clearing is_attached.
`ctx_addr` models the numeric address of the context object: the source
synthesizes m_tmsi as `(uint32_t) ctx`, the address truncated to 32 bits.
Error returns leave the mutations already applied in place, as the C code
mutates the context in place. -/
def emm_attach_update (d : EmmData) (ctx : EmmContext) (ueid : Nat)
    (type : AttachType) (ksi : Int) (guti : Option GUTI) (imsi : Option Imsi)
    (imei : Option Imei)
    (eea eia ucs2 uea uia gea umts_present gprs_present : Int)
    (esm_msg_pP : OctetString) (cfg : MmeConfig) (ctx_addr : Nat) :
    Status × EmmData × EmmContext × List Prim :=
  let c0 := { ctx with
              ueid := ueid
              is_emergency := decide (type = AttachType.emergency)
              ksi := ksi, eea := eea, eia := eia, ucs2 := ucs2, uea := uea
              uia := uia, gea := gea, umts_present := umts_present
              gprs_present := gprs_present }
  match guti with
  | some g =>
      match c0.guti with
      | none =>
          -- malloc a GUTI and index the UE-provided GUTI under this ue_id
          let d1 := guti_index_insert_op d g c0.ueid
          let c1 := { c0 with guti := some g }
          emm_attach_update_tail d1 c1 imsi imei esm_msg_pP
            [Prim.guti_index_insert g c0.ueid]
      | some _ =>
          let c1 := { c0 with guti := some g }
          emm_attach_update_tail d c1 imsi imei esm_msg_pP []
  | none =>
      let step : EmmData × EmmContext × List Prim :=
        match c0.guti with
        | none => (d, { c0 with guti := some GUTI.zeroed }, [])
        | some og => (guti_index_remove_op d og, c0, [Prim.guti_index_remove og])
      let d1 := step.1
      let c1 := step.2.1
      let tr1 := step.2.2
      match imsi with
      | some i =>
          let mnc_length := cfg.find_mnc_length i.digit1 i.digit2 i.digit3
                              i.digit4 i.digit5 i.digit6
          let base := (c1.guti.getD GUTI.zeroed)
          let g1 := { base with
                      gummei := { base.gummei with
                                  MMEcode := cfg.gummei_mmec0
                                  MMEgid := cfg.gummei_mme_gid0 }
                      m_tmsi := ctx_addr % 2 ^ 32 }
          let c2 := { c1 with tac := cfg.gummei_plmn_tac0, guti := some g1 }
          if mnc_length = 2 ∨ mnc_length = 3 then
            let plmn : Plmn :=
              if mnc_length = 2 then
                { MCCdigit1 := i.digit1, MCCdigit2 := i.digit2
                  MCCdigit3 := i.digit3, MNCdigit1 := i.digit4
                  MNCdigit2 := i.digit5, MNCdigit3 := 15 }
              else
                { MCCdigit1 := i.digit1, MCCdigit2 := i.digit2
                  MCCdigit3 := i.digit3, MNCdigit1 := i.digit5
                  MNCdigit2 := i.digit6, MNCdigit3 := i.digit4 }
            let g2 := { g1 with gummei := { g1.gummei with plmn := plmn } }
            let c3 := { c2 with guti := some g2, guti_is_new := true }
            let d2 := guti_index_insert_op d1 g2 c3.ueid
            emm_attach_update_tail d2 c3 imsi imei esm_msg_pP
              (tr1 ++ [Prim.guti_index_insert g2 c3.ueid])
          else
            (Status.error, d1, c2, tr1)
      | none =>
          (Status.error, d1, c1, tr1)

/-
   --------------------------------------------------------------------------
   _emm_attach_security, _emm_attach, _emm_attach_identify
   --------------------------------------------------------------------------
-/

/-- _emm_attach_security: creates (or memset-resets) the NAS security context
with type KSI_NOT_AVAILABLE and default algorithms EEA0/EIA0 (malloc assumed
to succeed) and initiates the security mode control procedure; on initiation
failure sets ILLEGAL_UE and rejects. -/
def emm_attach_security (d : EmmData) (ctx : EmmContext) (env : Env) :
    Status × EmmData × Option EmmContext × List Prim :=
  let sec : SecurityContext :=
    ⟨EMM_KSI_NOT_AVAILABLE, NAS_SECURITY_ALGORITHMS_EEA0,
     NAS_SECURITY_ALGORITHMS_EIA0⟩
  let ctx1 := { ctx with security := some sec }
  let tr := [Prim.emm_proc_security_mode_control_call ctx1.ueid]
  let rc := env.smc_rc
  if rc ≠ Status.ok then
    let ctx2 := { ctx1 with emm_cause := EMM_CAUSE_ILLEGAL_UE }
    let r := emm_attach_reject d ctx2 env
    (r.1, r.2.1, r.2.2.1, tr ++ r.2.2.2)
  else (rc, d, some ctx1, tr)

/-- The closing check of _emm_attach: on a non-ok status set PROTOCOL_ERROR
and reject.  When the context was already released by an earlier reject the
source would access freed memory; the model leaves the released context out
of reach. -/
def emm_attach_finish (d : EmmData) (rc : Status) (mctx : Option EmmContext)
    (mdata : Option AttachData) (tr : List Prim) (env : Env) :
    Status × EmmData × Option EmmContext × Option AttachData × List Prim :=
  if rc ≠ Status.ok then
    match mctx with
    | some c =>
        let c1 := { c with emm_cause := EMM_CAUSE_PROTOCOL_ERROR }
        let r := emm_attach_reject d c1 env
        (r.1, r.2.1, r.2.2.1, mdata, tr ++ r.2.2.2)
    | none => (rc, d, none, mdata, tr)
  else (rc, d, mctx, mdata, tr)

/-- _emm_attach: asks ESM for PDN connectivity with the context's ESM
message.  On ESM_SAP_SUCCESS it callocs the retransmission data, registers
_emm_attach_abort with it through emm_proc_common_initialize (an initiation
failure frees the data and returns RETURNerror at once), and — only under
ORIGINAL_CODE, which this build does not define — caches esm_sap.send in the
data and sends the ATTACH ACCEPT; without ORIGINAL_CODE the function simply
returns RETURNok.  On an ESM failure other than DISCARDED it sets
ESM_FAILURE, copies the ESM reject PDU into the context and rejects; on
DISCARDED it returns RETURNok. -/
def emm_attach (d : EmmData) (ctx : EmmContext) (env : Env) :
    Status × EmmData × Option EmmContext × Option AttachData × List Prim :=
  let reqPrim := Prim.esm_pdn_connectivity_req ctx.ueid ctx.esm_msg
  let res := env.esm_sap_send reqPrim
  if res.rc ≠ Status.error ∧ res.err = EsmSapErr.success then
    let rcC := env.common_register_rc
    let trC := [reqPrim, Prim.emm_proc_common_register ctx.ueid CommonCb.attach_abort]
    if rcC ≠ Status.ok then
      (Status.error, d, some ctx, none, trC)
    else
      let data : AttachData :=
        { ueid := ctx.ueid, retransmission_count := 0
          esm_msg := OctetString.empty }
      if ORIGINAL_CODE then
        let data1 := { data with esm_msg := ⟨res.send.length, res.send.value⟩ }
        let r := emm_attach_accept ctx data1 env
        if r.1 ≠ Status.error ∧ r.2.1.guti_is_new ∧ r.2.1.old_guti.isSome then
          let p := Prim.emmreg_common_proc_req data1.ueid
          emm_attach_finish d (env.emm_sap_send p) (some r.2.1) (some data1)
            (trC ++ r.2.2 ++ [p]) env
        else
          emm_attach_finish d r.1 (some r.2.1) (some data1) (trC ++ r.2.2) env
      else
        (Status.ok, d, some ctx, some data, trC)
  else if res.err ≠ EsmSapErr.discarded then
    let ctx1 := { ctx with
                  emm_cause := EMM_CAUSE_ESM_FAILURE,
                  esm_msg := ⟨res.send.length, res.send.value⟩ }
    let r := emm_attach_reject d ctx1 env
    emm_attach_finish r.2.1 r.1 r.2.2.1 none (reqPrim :: r.2.2.2) env
  else
    (Status.ok, d, some ctx, none, [reqPrim])

/-- The authentication dispatch and final reject of _emm_attach_identify:
with a security context proceed to _emm_attach; for an emergency attach with
unauthenticated IMSIs allowed proceed to _emm_attach_security (the remaining
branch is compiled out under NAS_BUILT_IN_EPC); on a non-ok outcome, reject
(when the context was already released the source would pass the freed
pointer to the reject; the model leaves it out of reach). -/
def emm_attach_identify_auth (d : EmmData) (ctx1 : EmmContext)
    (cfg : MmeConfig) (env : Env) (rc1 : Status) (tr1 : List Prim) :
    Status × EmmData × Option EmmContext × List Prim :=
  let auth : Status × EmmData × Option EmmContext × List Prim :=
    if rc1 ≠ Status.error then
      if ctx1.security.isSome then
        let r := emm_attach d ctx1 env
        (r.1, r.2.1, r.2.2.1, r.2.2.2.2)
      else if ctx1.is_emergency ∧ cfg.unauth_imsi then
        emm_attach_security d ctx1 env
      else (rc1, d, some ctx1, [])
    else (rc1, d, some ctx1, [])
  if auth.1 ≠ Status.ok then
    match auth.2.2.1 with
    | some c =>
        let r := emm_attach_reject auth.2.1 c env
        (r.1, r.2.1, r.2.2.1, tr1 ++ auth.2.2.2 ++ r.2.2.2)
    | none => (auth.1, auth.2.1, none, tr1 ++ auth.2.2.2)
  else (auth.1, auth.2.1, auth.2.2.1, tr1 ++ auth.2.2.2)

/-- The second half of _emm_attach_identify: GUTI reallocation when flagged,
then the authentication dispatch and final reject. -/
def emm_attach_identify_rest (d : EmmData) (ctx : EmmContext)
    (cfg : MmeConfig) (env : Env) (rc : Status) (guti_reallocation : Bool)
    (tr : List Prim) : Status × EmmData × Option EmmContext × List Prim :=
  let step : Status × EmmContext × List Prim :=
    if rc ≠ Status.error ∧ guti_reallocation then
      -- free the old old_guti, save the current GUTI, malloc a new one and
      -- ask the MME to fill it
      let c1 := { ctx with old_guti := ctx.guti }
      let res := env.new_guti_res
      let trG := [Prim.mme_api_new_guti_call c1.imsi]
      if res.rc ≠ Status.ok then
        -- the malloc'd GUTI stays unfilled (indeterminate; modelled zeroed,
        -- it is never read before release on this path)
        (res.rc, { c1 with
                   guti := some GUTI.zeroed,
                   emm_cause := EMM_CAUSE_ILLEGAL_UE }, trG)
      else
        (res.rc, { c1 with
                   guti := some res.guti, tac := res.tac,
                   n_tacs := res.n_tacs, guti_is_new := true }, trG)
    else (rc, ctx, [])
  emm_attach_identify_auth d step.2.1 cfg env step.1 (tr ++ step.2.2)

/-- _emm_attach_identify: selects the identification strategy by the
identity present in the context.  With an IMSI and no security context the
EPC build requests an authentication vector asynchronously; with an IMSI and
a security context it validates via identify_imsi and flags GUTI
reallocation; with only a GUTI the "LG Temp. Force identification" hack
makes it always initiate the identification common procedure and return
(rejecting if the initiation fails); with an IMEI on an emergency attach it
validates via identify_imei; with no identity it sets ILLEGAL_UE. -/
def emm_attach_identify (d : EmmData) (ctx : EmmContext) (cfg : MmeConfig)
    (env : Env) : Status × EmmData × Option EmmContext × List Prim :=
  match ctx.imsi with
  | some i =>
      if ctx.security.isNone then
        emm_attach_identify_rest d ctx cfg env Status.ok false
          [Prim.nas_itti_auth_info_req_call ctx.ueid i]
      else
        let rc := env.identify_imsi_rc
        let ctx1 := if rc ≠ Status.ok then
                      { ctx with emm_cause := EMM_CAUSE_ILLEGAL_UE }
                    else ctx
        emm_attach_identify_rest d ctx1 cfg env rc true
          [Prim.mme_api_identify_imsi_call i]
  | none =>
    match ctx.guti with
    | some g =>
        let tr := [Prim.mme_api_identify_guti_call g,
                   Prim.emm_proc_identification_call ctx.ueid]
        let rc := env.identification_rc
        if rc ≠ Status.ok then
          let ctx1 := { ctx with emm_cause := EMM_CAUSE_ILLEGAL_UE }
          let r := emm_attach_reject d ctx1 env
          (r.1, r.2.1, r.2.2.1, tr ++ r.2.2.2)
        else (rc, d, some ctx, tr)
    | none =>
      match ctx.imei with
      | some im =>
          if ctx.is_emergency then
            let rc := env.identify_imei_rc
            let ctx1 := if rc ≠ Status.ok then
                          { ctx with emm_cause := EMM_CAUSE_IMEI_NOT_ACCEPTED }
                        else ctx
            emm_attach_identify_rest d ctx1 cfg env rc false
              [Prim.mme_api_identify_imei_call im]
          else
            emm_attach_identify_rest d
              { ctx with emm_cause := EMM_CAUSE_ILLEGAL_UE } cfg env
              Status.error false []
      | none =>
          emm_attach_identify_rest d
            { ctx with emm_cause := EMM_CAUSE_ILLEGAL_UE } cfg env
            Status.error false []

/-
   --------------------------------------------------------------------------
   ATTACH COMPLETE: emm_proc_attach_complete
   --------------------------------------------------------------------------
-/

/-- emm_proc_attach_complete: frees the retransmission data returned by
emm_proc_common_get_args; looks the context up (ueid > 0 under
NAS_BUILT_IN_EPC); when found stops T3450, clears guti_is_new and old_guti
and forwards the activate-default-bearer confirm to ESM; then dispatches on
the ESM result.  When no context was found, rc keeps its RETURNerror
initialization and the err field of the local esm_sap structure is never
assigned: the dispatch then reads that indeterminate value, modelled by the
explicit `stale_err` argument. -/
def emm_proc_attach_complete (d : EmmData) (ueid : Nat)
    (esm_msg_pP : OctetString) (dataOpt : Option AttachData) (env : Env)
    (stale_err : EsmSapErr) : Status × EmmData × List Prim :=
  let trD : List Prim := match dataOpt with
                         | some dd => [Prim.attach_data_free dd.ueid]
                         | none => []
  let mctx := if ueid > 0 then emm_data_context_get d ueid else none
  match mctx with
  | some c =>
      let c1 := { c with
                  T3450 := { c.T3450 with id := NAS_TIMER_INACTIVE_ID },
                  guti_is_new := false, old_guti := none }
      let d1 := emm_data_sync d c1
      let cnfPrim := Prim.esm_default_eps_bearer_context_activate_cnf ueid esm_msg_pP
      let res := env.esm_sap_send cnfPrim
      let tr1 := trD ++ [Prim.timer_stop c.T3450.id, cnfPrim]
      if res.rc ≠ Status.error ∧ res.err = EsmSapErr.success then
        let c2 := { c1 with is_attached := true }
        let d2 := emm_data_sync d1 c2
        let p := Prim.emmreg_attach_cnf ueid
        (env.emm_sap_send p, d2, tr1 ++ [p])
      else if res.err ≠ EsmSapErr.discarded then
        let p := Prim.emmreg_attach_rej ueid
        (env.emm_sap_send p, d1, tr1 ++ [p])
      else
        (Status.ok, d1, tr1)
  | none =>
      if stale_err ≠ EsmSapErr.discarded then
        let p := Prim.emmreg_attach_rej ueid
        (env.emm_sap_send p, d, trD ++ [p])
      else
        (Status.ok, d, trD)

/-
   --------------------------------------------------------------------------
   The attach-request entry point: emm_proc_attach_request
   --------------------------------------------------------------------------
-/

/-- The parameters of emm_proc_attach_request.  Only the tac field of the
tai argument is read (the "TRICK TO SET TAC" block); `ctx_addr` models the
numeric address of the context object this request ends up operating on
(read only by the m_tmsi pointer cast in _emm_attach_update); the
decode_status parameter is never read by the function and is omitted. -/
structure ReqArgs where
  ueid : Nat
  type : AttachType
  is_native_ksi : Bool
  ksi : Int
  is_native_guti : Bool
  guti : Option GUTI
  imsi : Option Imsi
  imei : Option Imei
  tai : Option Nat
  eea : Int
  eia : Int
  ucs2 : Int
  uea : Int
  uia : Int
  gea : Int
  umts_present : Int
  gprs_present : Int
  esm_msg : OctetString
  ctx_addr : Nat
deriving DecidableEq, Repr

/-- Context resolution of emm_proc_attach_request's else-branch under
NAS_BUILT_IN_EPC, given that no usable context was found by ue_id: when the
request carries a GUTI that resolves in the store, the context is rebound
(notify, remove, re-key, add) — but the code then leaves
previous_context_found at FALSE (line 350), so a fresh dynamic context is
allocated and added in every case.  Returns the store, the context the
procedure continues with, whether that object is the one the store holds
under the ue_id (the fresh context is not when the slot was already filled
by the rebinding), and the trace. -/
def emm_attach_resolve (d : EmmData) (mctx : Option EmmContext)
    (a : ReqArgs) : EmmData × EmmContext × Bool × List Prim :=
  match mctx with
  | some c => (d, c, true, [])
  | none =>
      let reb : EmmData × List Prim :=
        match a.guti with
        | some g =>
            match emm_data_context_get_by_guti d g with
            | some t =>
                let d1 := emm_data_context_remove d t
                let t1 := { t with ueid := a.ueid }
                let d2 := emm_data_context_add d1 t1
                (d2, [Prim.mme_api_notify_ue_id_changed t.ueid a.ueid,
                      Prim.store_remove t.ueid, Prim.store_add a.ueid t1])
            | none => (d, [])
        | none => (d, [])
      let d1 := reb.1
      -- previous_context_found == FALSE: create the UE's EMM context
      let c := EmmContext.fresh a.ueid
      let stored := (emm_data_context_get d1 a.ueid).isNone
      let d2 := emm_data_context_add d1 c
      (d2, c, stored, reb.2 ++ [Prim.store_add a.ueid c])

/-- The non-duplicate continuation of emm_proc_attach_request: context
resolution, TAC capture, context update (an update failure sets ILLEGAL_UE
and rejects), then identification. -/
def emm_proc_attach_request_continue (d : EmmData) (mctx : Option EmmContext)
    (cfg : MmeConfig) (env : Env) (a : ReqArgs) :
    Status × EmmData × List Prim :=
  let res := emm_attach_resolve d mctx a
  let d1 := res.1
  let ctx0 := res.2.1
  let stored := res.2.2.1
  let tr0 := res.2.2.2
  let ctxT := match a.tai with
              | some tac => { ctx0 with tac := tac }
              | none => ctx0
  let u := emm_attach_update d1 ctxT a.ueid a.type a.ksi a.guti a.imsi a.imei
             a.eea a.eia a.ucs2 a.uea a.uia a.gea a.umts_present
             a.gprs_present a.esm_msg cfg a.ctx_addr
  let d2 := if stored then emm_data_sync u.2.1 u.2.2.1 else u.2.1
  if u.1 ≠ Status.ok then
    let ctx2 := { u.2.2.1 with emm_cause := EMM_CAUSE_ILLEGAL_UE }
    let d3 := if stored then emm_data_sync d2 ctx2 else d2
    let r := emm_attach_reject d3 ctx2 env
    (r.1, r.2.1, tr0 ++ u.2.2.2 ++ r.2.2.2)
  else
    let r := emm_attach_identify d2 u.2.2.1 cfg env
    let d3 := match r.2.2.1 with
              | some c => if stored then emm_data_sync r.2.1 c else r.2.1
              | none => r.2.1
    (r.1, d3, tr0 ++ u.2.2.2 ++ r.2.2.2)

/-- emm_proc_attach_request under NAS_BUILT_IN_EPC: the emergency-attach
policy check, then — when a context exists with FSM status above
DEREGISTERED — the duplicate/changed arbitration (a change emits
EMMREG_PROC_ABORT and re-enters the entry point recursively; a duplicate is
acknowledged with RETURNok); otherwise the non-duplicate continuation.  The
recursion of the source is bounded by the explicit fuel; fuel exhaustion
yields RETURNerror and is never reached in the theorems below. -/
def emm_proc_attach_request : Nat → EmmData → MmeConfig → Env → ReqArgs →
    Status × EmmData × List Prim
  | 0, d, _, _, _ => (Status.error, d, [])
  | Nat.succ fuel, d, cfg, env, a =>
    if ¬ cfg.emergency_attach ∧ a.type = AttachType.emergency then
      let ue_ctx := { EmmContext.zeroed a.ueid with
                      emm_cause := EMM_CAUSE_IMEI_NOT_ACCEPTED }
      let r := emm_attach_reject d ue_ctx env
      (r.1, r.2.1, r.2.2.2)
    else
      match emm_data_context_get d a.ueid with
      | some c =>
          if c.fsm_status.toNat > EmmFsmStatus.DEREGISTERED.toNat then
            if emm_attach_have_changed c a.type a.ksi a.guti a.imsi a.imei
                 a.eea a.eia a.ucs2 a.uea a.uia a.gea a.umts_present
                 a.gprs_present then
              let p := Prim.emmreg_proc_abort a.ueid
              let rc := env.emm_sap_send p
              if rc ≠ Status.error then
                let c1 := emm_reg_proc_abort_effect c
                let d1 := emm_data_sync d c1
                let r := emm_proc_attach_request fuel d1 cfg env a
                (r.1, r.2.1, p :: r.2.2)
              else (rc, d, [p])
            else (Status.ok, d, [])
          else emm_proc_attach_request_continue d (some c) cfg env a
      | none => emm_proc_attach_request_continue d none cfg env a

/-
   --------------------------------------------------------------------------
   Trace observations and concrete fixtures
   --------------------------------------------------------------------------
-/

/-- Is this event an outgoing ATTACH ACCEPT (EMMAS_ESTABLISH_CNF)? -/
def Prim.isEstablishCnf : Prim → Bool
  | Prim.emmas_establish_cnf _ _ _ _ _ _ _ => true
  | _ => false

/-- Is this event an outgoing ATTACH REJECT (EMMAS_ESTABLISH_REJ)? -/
def Prim.isEstablishRej : Prim → Bool
  | Prim.emmas_establish_rej _ _ _ => true
  | _ => false

/-- Is this event an EMMREG_PROC_ABORT notification? -/
def Prim.isProcAbort : Prim → Bool
  | Prim.emmreg_proc_abort _ => true
  | _ => false

/-- Is this event an identify-by-IMEI call? -/
def Prim.isIdentifyImei : Prim → Bool
  | Prim.mme_api_identify_imei_call _ => true
  | _ => false

/-- Is this event a new-GUTI assignment request (mme_api_new_guti)? -/
def Prim.isNewGutiCall : Prim → Bool
  | Prim.mme_api_new_guti_call _ => true
  | _ => false

/-- Fixture environment: every external call succeeds; ESM answers
ESM_SAP_SUCCESS with a two-byte outbound PDU. -/
def envX : Env :=
  { emm_sap_send := fun _ => Status.ok
    esm_sap_send := fun _ => ⟨Status.ok, EsmSapErr.success, ⟨2, [7, 8]⟩⟩
    identify_imsi_rc := Status.ok
    identify_guti_rc := Status.ok
    identify_imei_rc := Status.ok
    new_guti_res := ⟨Status.ok, GUTI.zeroed, 9, 1⟩
    identification_rc := Status.ok
    smc_rc := Status.ok
    common_register_rc := Status.ok
    timer_start_id := 42
    timer_restart_id := fun i => i + 1 }

/-- Fixture configuration: emergency attach enabled, unauthenticated IMSIs
not allowed, default GUMMEI 11/22/33, every PLMN resolving to a 2-digit
MNC. -/
def cfgX : MmeConfig :=
  { emergency_attach := true
    unauth_imsi := false
    gummei_mmec0 := 11
    gummei_mme_gid0 := 22
    gummei_plmn_tac0 := 33
    find_mnc_length := fun _ _ _ _ _ _ => 2 }

/-- Fixture IMSI 001-01-… . -/
def imsiX : Imsi := ⟨0, 0, 1, 0, 1, 0, [1]⟩

/-- Fixture GUTI. -/
def gutiX : GUTI := ⟨⟨⟨0, 0, 1, 0, 1, 15⟩, 22, 11⟩, 99⟩

/-- Fixture context for ue_id 7: identified by IMSI and GUTI, with a
security context and a pending ESM message. -/
def ctxX : EmmContext :=
  { EmmContext.fresh 7 with
    imsi := some imsiX
    security := some ⟨1, 2, 3⟩
    guti := some gutiX
    esm_msg := ⟨2, [5, 6]⟩ }

/-- Fixture store holding ctxX under ue_id 7 and gutiX in the GUTI index. -/
def dX : EmmData := ⟨[(7, ctxX)], [(gutiX, 7)]⟩

/-- The empty store. -/
def dEmptyX : EmmData := ⟨[], []⟩

/-- Fixture retransmission data for ue_id 7 with counter 0. -/
def dataX : AttachData := ⟨7, 0, ⟨2, [7, 8]⟩⟩

/-- Fixture attach request: emergency attach identifying by IMEI only. -/
def reqImeiOnlyX : ReqArgs :=
  { ueid := 5, type := AttachType.emergency, is_native_ksi := true, ksi := 0
    is_native_guti := true, guti := none, imsi := none, imei := some ⟨[9]⟩
    tai := none, eea := 0, eia := 0, ucs2 := 0, uea := 0, uia := 0, gea := 0
    umts_present := 0, gprs_present := 0, esm_msg := ⟨1, [1]⟩
    ctx_addr := 100 }

/-- Fixture attach request arriving on the fresh lower-layer ue_id 12 and
carrying gutiX, which dX maps to the existing context of ue_id 7. -/
def reqRebindX : ReqArgs :=
  { reqImeiOnlyX with
    ueid := 12, type := AttachType.eps, guti := some gutiX, imei := none }

/-- Fixture registered-initiated context for the duplicate/changed
arbitration: all capability fields zero, no security context. -/
def ctxRegX : EmmContext :=
  { ctxX with
    fsm_status := EmmFsmStatus.REGISTERED_INITIATED
    security := none }

/-- Fixture store holding ctxRegX. -/
def dRegX : EmmData := ⟨[(7, ctxRegX)], [(gutiX, 7)]⟩

/-- Fixture attach request repeating exactly the parameters stored in
ctxRegX (a duplicate). -/
def reqDupX : ReqArgs :=
  { reqImeiOnlyX with
    ueid := 7, type := AttachType.eps, guti := some gutiX
    imsi := some imsiX, imei := none }

/-- The same request with a changed encryption-capability field. -/
def reqChangedX : ReqArgs := { reqDupX with eea := 5 }

/-- Fixture dynamic context whose cause is ESM_FAILURE while its ESM message
is empty (the fatal reject configuration). -/
def ctxEsmFailX : EmmContext :=
  { EmmContext.fresh 9 with emm_cause := EMM_CAUSE_ESM_FAILURE }

/-- Fixture context with no GUTI, for the GUTI-synthesis runs. -/
def ctxNoGutiX : EmmContext := { EmmContext.fresh 7 with imsi := some imsiX }

/-- Fixture emergency context holding only an IMEI. -/
def ctxImeiOnlyX : EmmContext :=
  { EmmContext.fresh 5 with imei := some ⟨[9]⟩, is_emergency := true }

/-
   ==========================================================================
   THEOREMS
   ==========================================================================
-/

/-- Replacing the entry with the same ue_id: a successful lookup before the
write-back finds the written context afterwards. -/
theorem get_sync_of_get (d : EmmData) (u : Nat) (c c' : EmmContext)
    (h : emm_data_context_get d u = some c) (hue : c'.ueid = u) :
    emm_data_context_get (emm_data_sync d c') u = some c' := by
  rcases d with ⟨l, gi⟩
  simp only [emm_data_context_get, emm_data_sync] at h ⊢
  induction l with
  | nil => simp [List.find?] at h
  | cons hd tl ih =>
      rcases hd with ⟨k, cc⟩
      rcases hbe : (k == u) with _ | _
      · simp only [List.map_cons, List.find?, hue, hbe,
          Bool.false_eq_true, if_false] at h ⊢
        simp only [hue] at ih
        exact ih h
      · simp only [List.map_cons, List.find?, hue, hbe] at h ⊢
        simp [hbe]

/-- The tail of _emm_attach_update always returns RETURNok. -/
theorem update_tail_rc (d : EmmData) (c : EmmContext) (imsi : Option Imsi)
    (imei : Option Imei) (esm : OctetString) (tr : List Prim) :
    (emm_attach_update_tail d c imsi imei esm tr).1 = Status.ok := by
  unfold emm_attach_update_tail
  cases imsi <;> cases imei <;> by_cases h : esm.length > 0 <;> simp [h]

/-- The tail of _emm_attach_update leaves the store unchanged. -/
theorem update_tail_store (d : EmmData) (c : EmmContext) (imsi : Option Imsi)
    (imei : Option Imei) (esm : OctetString) (tr : List Prim) :
    (emm_attach_update_tail d c imsi imei esm tr).2.1 = d := by
  unfold emm_attach_update_tail
  cases imsi <;> cases imei <;> by_cases h : esm.length > 0 <;> simp [h]

/-- The tail of _emm_attach_update emits no events of its own. -/
theorem update_tail_trace (d : EmmData) (c : EmmContext) (imsi : Option Imsi)
    (imei : Option Imei) (esm : OctetString) (tr : List Prim) :
    (emm_attach_update_tail d c imsi imei esm tr).2.2.2 = tr := by
  unfold emm_attach_update_tail
  cases imsi <;> cases imei <;> by_cases h : esm.length > 0 <;> simp [h]

/-- The tail of _emm_attach_update does not touch the GUTI. -/
theorem update_tail_guti (d : EmmData) (c : EmmContext) (imsi : Option Imsi)
    (imei : Option Imei) (esm : OctetString) (tr : List Prim) :
    (emm_attach_update_tail d c imsi imei esm tr).2.2.1.guti = c.guti := by
  unfold emm_attach_update_tail
  cases imsi <;> cases imei <;> by_cases h : esm.length > 0 <;> simp [h]

/-- The tail of _emm_attach_update does not touch the TAC. -/
theorem update_tail_tac (d : EmmData) (c : EmmContext) (imsi : Option Imsi)
    (imei : Option Imei) (esm : OctetString) (tr : List Prim) :
    (emm_attach_update_tail d c imsi imei esm tr).2.2.1.tac = c.tac := by
  unfold emm_attach_update_tail
  cases imsi <;> cases imei <;> by_cases h : esm.length > 0 <;> simp [h]

/-- The tail of _emm_attach_update does not touch guti_is_new. -/
theorem update_tail_guti_is_new (d : EmmData) (c : EmmContext)
    (imsi : Option Imsi) (imei : Option Imei) (esm : OctetString)
    (tr : List Prim) :
    (emm_attach_update_tail d c imsi imei esm tr).2.2.1.guti_is_new =
      c.guti_is_new := by
  unfold emm_attach_update_tail
  cases imsi <;> cases imei <;> by_cases h : esm.length > 0 <;> simp [h]

/-- The tail of _emm_attach_update does not touch the security context. -/
theorem update_tail_security (d : EmmData) (c : EmmContext)
    (imsi : Option Imsi) (imei : Option Imei) (esm : OctetString)
    (tr : List Prim) :
    (emm_attach_update_tail d c imsi imei esm tr).2.2.1.security =
      c.security := by
  unfold emm_attach_update_tail
  cases imsi <;> cases imei <;> by_cases h : esm.length > 0 <;> simp [h]

/-- The tail of _emm_attach_update does not touch is_emergency. -/
theorem update_tail_is_emergency (d : EmmData) (c : EmmContext)
    (imsi : Option Imsi) (imei : Option Imei) (esm : OctetString)
    (tr : List Prim) :
    (emm_attach_update_tail d c imsi imei esm tr).2.2.1.is_emergency =
      c.is_emergency := by
  unfold emm_attach_update_tail
  cases imsi <;> cases imei <;> by_cases h : esm.length > 0 <;> simp [h]

/-- The tail of _emm_attach_update does not touch the ue_id. -/
theorem update_tail_ueid (d : EmmData) (c : EmmContext) (imsi : Option Imsi)
    (imei : Option Imei) (esm : OctetString) (tr : List Prim) :
    (emm_attach_update_tail d c imsi imei esm tr).2.2.1.ueid = c.ueid := by
  unfold emm_attach_update_tail
  cases imsi <;> cases imei <;> by_cases h : esm.length > 0 <;> simp [h]

/-- The tail of _emm_attach_update installs the request IMSI when present. -/
theorem update_tail_imsi (d : EmmData) (c : EmmContext) (i : Imsi)
    (imei : Option Imei) (esm : OctetString) (tr : List Prim) :
    (emm_attach_update_tail d c (some i) imei esm tr).2.2.1.imsi = some i := by
  unfold emm_attach_update_tail
  cases imei <;> by_cases h : esm.length > 0 <;> simp [h]

/-- The tail of _emm_attach_update ends by clearing is_attached. -/
theorem update_tail_is_attached (d : EmmData) (c : EmmContext)
    (imsi : Option Imsi) (imei : Option Imei) (esm : OctetString)
    (tr : List Prim) :
    (emm_attach_update_tail d c imsi imei esm tr).2.2.1.is_attached = false := by
  unfold emm_attach_update_tail
  cases imsi <;> cases imei <;> by_cases h : esm.length > 0 <;> simp [h]

/-- An if-then-else with a `true` branch, viewed as a disjunction. -/
theorem ite_true_eq_or (c : Prop) [Decidable c] (b : Bool) :
    ((if c then true else b) = true) ↔ (c ∨ b = true) := by
  by_cases h : c <;> simp [h]

/-- The IMEI block of the detector agrees with the spec comparison. -/
theorem have_changed_imei_iff (imei ctx_imei : Option Imei) :
    emm_attach_have_changed_imei imei ctx_imei = true ↔
      imeiChangedSpec imei ctx_imei := by
  cases imei <;> cases ctx_imei <;>
    simp [emm_attach_have_changed_imei, imeiChangedSpec]

/-- The IMSI block of the detector agrees with the spec comparison, falling
through to the IMEI block. -/
theorem have_changed_imsi_iff (imsi : Option Imsi) (imei : Option Imei)
    (ctx : EmmContext) :
    emm_attach_have_changed_imsi imsi imei ctx = true ↔
      (imsiChangedSpec imsi ctx.imsi ∨ imeiChangedSpec imei ctx.imei) := by
  cases hi : imsi <;> cases hci : ctx.imsi <;>
    simp [emm_attach_have_changed_imsi, imsiChangedSpec, hi, hci,
      have_changed_imei_iff]

/-- Failing `gutiEqSpec` is exactly the disjunction of field mismatches the
code tests. -/
theorem gutiEqSpec_not_iff (g cg : GUTI) :
    ¬ gutiEqSpec g cg ↔
      (g.m_tmsi ≠ cg.m_tmsi ∨
       (g.gummei.MMEcode ≠ cg.gummei.MMEcode ∨
        g.gummei.MMEgid ≠ cg.gummei.MMEgid ∨
        g.gummei.plmn.MCCdigit1 ≠ cg.gummei.plmn.MCCdigit1 ∨
        g.gummei.plmn.MCCdigit2 ≠ cg.gummei.plmn.MCCdigit2 ∨
        g.gummei.plmn.MCCdigit3 ≠ cg.gummei.plmn.MCCdigit3 ∨
        g.gummei.plmn.MNCdigit1 ≠ cg.gummei.plmn.MNCdigit1 ∨
        g.gummei.plmn.MNCdigit2 ≠ cg.gummei.plmn.MNCdigit2 ∨
        g.gummei.plmn.MNCdigit3 ≠ cg.gummei.plmn.MNCdigit3)) := by
  simp only [gutiEqSpec, not_and_or, ne_eq]

/-- The GUTI block of the detector agrees with the spec comparison, falling
through to the IMSI and IMEI blocks. -/
theorem have_changed_guti_iff (guti : Option GUTI) (imsi : Option Imsi)
    (imei : Option Imei) (ctx : EmmContext) :
    emm_attach_have_changed_guti guti imsi imei ctx = true ↔
      (gutiChangedSpec guti ctx.guti ∨ imsiChangedSpec imsi ctx.imsi ∨
       imeiChangedSpec imei ctx.imei) := by
  cases hg : guti <;> cases hcg : ctx.guti <;>
    simp only [emm_attach_have_changed_guti, gutiChangedSpec, hg, hcg,
      have_changed_imsi_iff, ite_true_eq_or, gutiEqSpec_not_iff, true_or,
      or_assoc, false_or, iff_self_or, true_iff, iff_true]

set_option maxHeartbeats 1000000 in
/-- Claim C5: for every stored context and every new Attach Request, the
parameter-change detector `_emm_attach_have_changed` returns CHANGED iff at
least one of the following differs: is_emergency (derived from the attach
type), ksi, eea, eia, umts_present, gprs_present; ucs2/uea/uia only when
umts_present is set on both sides; gea only when gprs_present is set on both
sides; GUTI, where equality requires matching m_tmsi and every digit of the
embedded GUMMEI and presence on only one side counts as changed; IMSI and
IMEI octet-wise with presence-asymmetry counting as changed. -/
theorem claim_C5_have_changed_iff (ctx : EmmContext) (type : AttachType)
    (ksi : Int) (guti : Option GUTI) (imsi : Option Imsi) (imei : Option Imei)
    (eea eia ucs2 uea uia gea umts_present gprs_present : Int) :
    emm_attach_have_changed ctx type ksi guti imsi imei eea eia ucs2 uea uia
        gea umts_present gprs_present = true ↔
      (decide (type = AttachType.emergency) ≠ ctx.is_emergency ∨
       ksi ≠ ctx.ksi ∨ eea ≠ ctx.eea ∨ eia ≠ ctx.eia ∨
       umts_present ≠ ctx.umts_present ∨ gprs_present ≠ ctx.gprs_present ∨
       (umts_present ≠ 0 ∧ ctx.umts_present ≠ 0 ∧
         (ucs2 ≠ ctx.ucs2 ∨ uea ≠ ctx.uea ∨ uia ≠ ctx.uia)) ∨
       (gprs_present ≠ 0 ∧ ctx.gprs_present ≠ 0 ∧ gea ≠ ctx.gea) ∨
       gutiChangedSpec guti ctx.guti ∨ imsiChangedSpec imsi ctx.imsi ∨
       imeiChangedSpec imei ctx.imei) := by
  unfold emm_attach_have_changed
  simp only [ite_true_eq_or, have_changed_guti_iff, or_assoc]
  constructor <;> intro h <;> casesm* _ ∨ _ <;> tauto

/-- Claim C1, counterexample: with the ESM peer answering ESM_SAP_SUCCESS
and returning a non-empty PDU in esm_sap.send, the compiled _emm_attach (the
ORIGINAL_CODE block is not built) allocates the retransmission buffer with
an empty ESM container — not the container returned by ESM — and never
calls _emm_attach_accept (no EMMAS_ESTABLISH_CNF is emitted). -/
theorem claim_C1_counterexample :
    (emm_attach dX ctxX envX).2.2.2.1 = some ⟨7, 0, OctetString.empty⟩ ∧
    (envX.esm_sap_send (Prim.esm_pdn_connectivity_req ctxX.ueid ctxX.esm_msg)).send ≠
      OctetString.empty ∧
    (envX.esm_sap_send (Prim.esm_pdn_connectivity_req ctxX.ueid ctxX.esm_msg)).err =
      EsmSapErr.success ∧
    (emm_attach dX ctxX envX).2.2.2.2.countP Prim.isEstablishCnf = 0 := by
  decide

/-- Claim C1, amended: when _emm_attach sends ESM_PDN_CONNECTIVITY_REQ and
the ESM peer answers ESM_SAP_SUCCESS (and the common-procedure registration
succeeds), it allocates an attach retransmission buffer with retransmission
counter 0 and an empty ESM container, registers _emm_attach_abort with that
buffer as the common-procedure abort callback, and returns RETURNok without
calling _emm_attach_accept: the container caching and the ATTACH ACCEPT
transmission are compiled out with ORIGINAL_CODE undefined (the accept is
triggered later through emm_cn_wrapper_attach_accept). -/
theorem claim_C1_attach_esm_success (d : EmmData) (ctx : EmmContext)
    (env : Env)
    (hrc : (env.esm_sap_send
        (Prim.esm_pdn_connectivity_req ctx.ueid ctx.esm_msg)).rc ≠ Status.error)
    (herr : (env.esm_sap_send
        (Prim.esm_pdn_connectivity_req ctx.ueid ctx.esm_msg)).err = EsmSapErr.success)
    (hreg : env.common_register_rc = Status.ok) :
    emm_attach d ctx env =
      (Status.ok, d, some ctx, some ⟨ctx.ueid, 0, OctetString.empty⟩,
       [Prim.esm_pdn_connectivity_req ctx.ueid ctx.esm_msg,
        Prim.emm_proc_common_register ctx.ueid CommonCb.attach_abort]) := by
  unfold emm_attach
  simp [hrc, herr, hreg, ORIGINAL_CODE]

/-- Witness for claim C1's amended theorem at the concrete fixtures. -/
theorem claim_C1_witness :
    (envX.esm_sap_send
        (Prim.esm_pdn_connectivity_req ctxX.ueid ctxX.esm_msg)).rc ≠ Status.error ∧
    (envX.esm_sap_send
        (Prim.esm_pdn_connectivity_req ctxX.ueid ctxX.esm_msg)).err = EsmSapErr.success ∧
    envX.common_register_rc = Status.ok ∧
    emm_attach dX ctxX envX =
      (Status.ok, dX, some ctxX, some ⟨ctxX.ueid, 0, OctetString.empty⟩,
       [Prim.esm_pdn_connectivity_req ctxX.ueid ctxX.esm_msg,
        Prim.emm_proc_common_register ctxX.ueid CommonCb.attach_abort]) :=
  ⟨by decide, by decide, by decide,
   claim_C1_attach_esm_success dX ctxX envX (by decide) (by decide) (by decide)⟩

/-- Claim C3, failing input: emm_proc_attach_complete for a ue_id with no
context does not just log and return: rc keeps its RETURNerror
initialization, the err field of the local esm_sap structure is read
uninitialized, and whenever that indeterminate value differs from
ESM_SAP_DISCARDED the function emits EMMREG_ATTACH_REJ (with a NULL
context). -/
theorem claim_C3_complete_no_context_emits_rej :
    emm_proc_attach_complete dEmptyX 3 OctetString.empty none envX
        EsmSapErr.failed =
      (Status.ok, dEmptyX, [Prim.emmreg_attach_rej 3]) := by
  decide

/-- Claim C6, failing input: a request on new ue_id 12 carrying the GUTI of
the context stored under ue_id 7 does invoke the observer and the
remove/insert pair, but then — previous_context_found being left FALSE — a
fresh default-initialized dynamic context is allocated and added under
ue_id 12, and the procedure continues with it instead of the rebound
context. -/
theorem claim_C6_rebind_allocates_fresh_context :
    (emm_proc_attach_request 3 dX cfgX envX reqRebindX).2.2.take 4 =
      [Prim.mme_api_notify_ue_id_changed 7 12,
       Prim.store_remove 7,
       Prim.store_add 12 { ctxX with ueid := 12 },
       Prim.store_add 12 (EmmContext.fresh 12)] := by
  decide

/-- Claim C7, counterexample: on a dynamic context whose cause is
ESM_FAILURE with an empty ESM message, _emm_attach_reject returns
RETURNerror immediately: no EMMAS_ESTABLISH_REJ is emitted and the context
is not released even though it is dynamic. -/
theorem claim_C7_counterexample :
    ctxEsmFailX.is_dynamic = true ∧
    ctxEsmFailX.emm_cause = EMM_CAUSE_ESM_FAILURE ∧
    ctxEsmFailX.esm_msg.length = 0 ∧
    emm_attach_reject dEmptyX ctxEsmFailX envX =
      (Status.error, dEmptyX, some ctxEsmFailX, []) := by
  decide

/-- Claim C8, counterexample: the synthesized m_tmsi is the context's
address truncated to 32 bits ((uint32_t) ctx), so two distinct context
addresses 4 and 4 + 2^32 produce identical GUTIs — the value is not
process-unique. -/
theorem claim_C8_counterexample :
    (4 : Nat) ≠ 4 + 2 ^ 32 ∧
    (emm_attach_update dEmptyX ctxNoGutiX 7 AttachType.eps 0 none (some imsiX)
        none 0 0 0 0 0 0 0 0 OctetString.empty cfgX 4).2.2.1.guti =
      (emm_attach_update dEmptyX ctxNoGutiX 7 AttachType.eps 0 none
        (some imsiX) none 0 0 0 0 0 0 0 0 OctetString.empty cfgX
        (4 + 2 ^ 32)).2.2.1.guti := by
  decide

/-- Claim C9, counterexample: an emergency Attach Request supplying only an
IMEI (no IMSI, no GUTI, no prior context) never reaches the identification
step: _emm_attach_update fails (no GUTI can be synthesized without an IMSI)
and the request is rejected with ILLEGAL_UE; no identify_imei call is
made. -/
theorem claim_C9_counterexample :
    (emm_proc_attach_request 3 dEmptyX cfgX envX reqImeiOnlyX).2.2 =
      [Prim.store_add 5 (EmmContext.fresh 5),
       Prim.emmas_establish_rej 5 EMM_CAUSE_ILLEGAL_UE OctetString.empty,
       Prim.store_remove 5,
       Prim.emmreg_proc_abort 5] ∧
    (emm_proc_attach_request 3 dEmptyX cfgX envX
        reqImeiOnlyX).2.2.countP Prim.isIdentifyImei = 0 := by
  decide

/-- Claim C7, amended: for every context passed to _emm_attach_reject, an
emm_cause equal to SUCCESS is first defaulted to ILLEGAL_UE (so the emitted
cause is never SUCCESS); when the cause is ESM_FAILURE and esm_msg is empty
the call returns RETURNerror immediately, emitting nothing and releasing
nothing (even for a dynamic context); otherwise EMMAS_ESTABLISH_REJ is
emitted carrying the cause, with the ESM PDU as NAS payload iff the cause is
ESM_FAILURE (the payload is empty otherwise), and the context is then
released iff it is dynamic. -/
theorem claim_C7_reject_behaviour (d : EmmData) (ctx : EmmContext)
    (env : Env) :
    ((if ctx.emm_cause = EMM_CAUSE_SUCCESS then EMM_CAUSE_ILLEGAL_UE
      else ctx.emm_cause) ≠ EMM_CAUSE_SUCCESS) ∧
    (ctx.emm_cause = EMM_CAUSE_ESM_FAILURE → ctx.esm_msg.length = 0 →
      emm_attach_reject d ctx env = (Status.error, d, some ctx, [])) ∧
    (∀ cause,
      (if ctx.emm_cause = EMM_CAUSE_SUCCESS then EMM_CAUSE_ILLEGAL_UE
       else ctx.emm_cause) = cause →
      (cause ≠ EMM_CAUSE_ESM_FAILURE ∨ 0 < ctx.esm_msg.length) →
      emm_attach_reject d ctx env =
        (let ctx1 := if ctx.emm_cause = EMM_CAUSE_SUCCESS then
                       { ctx with emm_cause := EMM_CAUSE_ILLEGAL_UE }
                     else ctx
         let msg := if cause = EMM_CAUSE_ESM_FAILURE then ctx.esm_msg
                    else OctetString.empty
         let rej := Prim.emmas_establish_rej ctx.ueid cause msg
         if ctx.is_dynamic then
           ((emm_attach_release d ctx1 env).1,
            (emm_attach_release d ctx1 env).2.1, none,
            rej :: (emm_attach_release d ctx1 env).2.2)
         else (env.emm_sap_send rej, d, some ctx1, [rej]))) := by
  refine ⟨?_, ?_, ?_⟩
  · by_cases hS : ctx.emm_cause = EMM_CAUSE_SUCCESS
    · simp [hS, EMM_CAUSE_SUCCESS, EMM_CAUSE_ILLEGAL_UE]
    · simp [hS]
  · intro h1 h2
    unfold emm_attach_reject
    simp [h1, h2, EMM_CAUSE_SUCCESS, EMM_CAUSE_ESM_FAILURE]
  · intro cause hc hor
    subst hc
    unfold emm_attach_reject
    by_cases hS : ctx.emm_cause = EMM_CAUSE_SUCCESS
    · have hne : EMM_CAUSE_ILLEGAL_UE ≠ EMM_CAUSE_ESM_FAILURE := by decide
      by_cases hdyn : ctx.is_dynamic <;>
        simp [hS, hne, hdyn]
    · rcases hor with hor | hor
      · have hEF : ctx.emm_cause ≠ EMM_CAUSE_ESM_FAILURE := by
          simpa [hS] using hor
        by_cases hdyn : ctx.is_dynamic <;>
          simp [hS, hEF, hdyn]
      · by_cases hEF : ctx.emm_cause = EMM_CAUSE_ESM_FAILURE
        · by_cases hdyn : ctx.is_dynamic <;>
            simp [hS, hEF, hor, hdyn, EMM_CAUSE_ESM_FAILURE,
              EMM_CAUSE_SUCCESS, EMM_CAUSE_ILLEGAL_UE]
        · by_cases hdyn : ctx.is_dynamic <;>
            simp [hS, hEF, hdyn]

/-- Witness for claim C7's amended theorem: the fatal branch at the concrete
fixture, through the theorem itself. -/
theorem claim_C7_witness :
    ctxEsmFailX.emm_cause = EMM_CAUSE_ESM_FAILURE ∧
    ctxEsmFailX.esm_msg.length = 0 ∧
    emm_attach_reject dEmptyX ctxEsmFailX envX =
      (Status.error, dEmptyX, some ctxEsmFailX, []) :=
  ⟨by decide, by decide,
   (claim_C7_reject_behaviour dEmptyX ctxEsmFailX envX).2.1 (by decide)
     (by decide)⟩

/-- Claim C8, amended: for every Attach Request with no GUTI but an IMSI
present, _emm_attach_update synthesizes a GUTI whose MMEcode, MMEgid and TAC
come from configuration (gummei.mmec[0], gummei.mme_gid[0],
gummei.plmn_tac[0]) and whose PLMN digits come from the IMSI's MCC/MNC with
the MNC length obtained from the PLMN lookup; it returns RETURNerror when
that length is neither 2 nor 3; the synthesized m_tmsi is the context
object's address truncated to 32 bits ((uint32_t) ctx — not a guaranteed
process-unique value), and guti_is_new is set. -/
theorem claim_C8_guti_synthesis (d : EmmData) (ctx : EmmContext) (ueid : Nat)
    (type : AttachType) (ksi : Int) (imsi : Imsi) (imei : Option Imei)
    (eea eia ucs2 uea uia gea ump gpp : Int) (esm : OctetString)
    (cfg : MmeConfig) (addr : Nat) :
    (cfg.find_mnc_length imsi.digit1 imsi.digit2 imsi.digit3 imsi.digit4
        imsi.digit5 imsi.digit6 = 2 ∨
     cfg.find_mnc_length imsi.digit1 imsi.digit2 imsi.digit3 imsi.digit4
        imsi.digit5 imsi.digit6 = 3 →
      (emm_attach_update d ctx ueid type ksi none (some imsi) imei eea eia
          ucs2 uea uia gea ump gpp esm cfg addr).1 = Status.ok ∧
      ((emm_attach_update d ctx ueid type ksi none (some imsi) imei eea eia
          ucs2 uea uia gea ump gpp esm cfg addr).2.2.1.tac =
        cfg.gummei_plmn_tac0) ∧
      ((emm_attach_update d ctx ueid type ksi none (some imsi) imei eea eia
          ucs2 uea uia gea ump gpp esm cfg addr).2.2.1.guti_is_new = true) ∧
      ((emm_attach_update d ctx ueid type ksi none (some imsi) imei eea eia
          ucs2 uea uia gea ump gpp esm cfg addr).2.2.1.guti.isSome = true) ∧
      (((emm_attach_update d ctx ueid type ksi none (some imsi) imei eea eia
          ucs2 uea uia gea ump gpp esm cfg addr).2.2.1.guti.getD
            GUTI.zeroed).gummei.MMEcode = cfg.gummei_mmec0) ∧
      (((emm_attach_update d ctx ueid type ksi none (some imsi) imei eea eia
          ucs2 uea uia gea ump gpp esm cfg addr).2.2.1.guti.getD
            GUTI.zeroed).gummei.MMEgid = cfg.gummei_mme_gid0) ∧
      (((emm_attach_update d ctx ueid type ksi none (some imsi) imei eea eia
          ucs2 uea uia gea ump gpp esm cfg addr).2.2.1.guti.getD
            GUTI.zeroed).m_tmsi = addr % 2 ^ 32) ∧
      (((emm_attach_update d ctx ueid type ksi none (some imsi) imei eea eia
          ucs2 uea uia gea ump gpp esm cfg addr).2.2.1.guti.getD
            GUTI.zeroed).gummei.plmn.MCCdigit1 = imsi.digit1) ∧
      (((emm_attach_update d ctx ueid type ksi none (some imsi) imei eea eia
          ucs2 uea uia gea ump gpp esm cfg addr).2.2.1.guti.getD
            GUTI.zeroed).gummei.plmn.MCCdigit2 = imsi.digit2) ∧
      (((emm_attach_update d ctx ueid type ksi none (some imsi) imei eea eia
          ucs2 uea uia gea ump gpp esm cfg addr).2.2.1.guti.getD
            GUTI.zeroed).gummei.plmn.MCCdigit3 = imsi.digit3) ∧
      (cfg.find_mnc_length imsi.digit1 imsi.digit2 imsi.digit3 imsi.digit4
          imsi.digit5 imsi.digit6 = 2 →
        ((emm_attach_update d ctx ueid type ksi none (some imsi) imei eea eia
          ucs2 uea uia gea ump gpp esm cfg addr).2.2.1.guti.getD
            GUTI.zeroed).gummei.plmn.MNCdigit1 = imsi.digit4 ∧
        ((emm_attach_update d ctx ueid type ksi none (some imsi) imei eea eia
          ucs2 uea uia gea ump gpp esm cfg addr).2.2.1.guti.getD
            GUTI.zeroed).gummei.plmn.MNCdigit2 = imsi.digit5 ∧
        ((emm_attach_update d ctx ueid type ksi none (some imsi) imei eea eia
          ucs2 uea uia gea ump gpp esm cfg addr).2.2.1.guti.getD
            GUTI.zeroed).gummei.plmn.MNCdigit3 = 15) ∧
      (cfg.find_mnc_length imsi.digit1 imsi.digit2 imsi.digit3 imsi.digit4
          imsi.digit5 imsi.digit6 = 3 →
        ((emm_attach_update d ctx ueid type ksi none (some imsi) imei eea eia
          ucs2 uea uia gea ump gpp esm cfg addr).2.2.1.guti.getD
            GUTI.zeroed).gummei.plmn.MNCdigit1 = imsi.digit5 ∧
        ((emm_attach_update d ctx ueid type ksi none (some imsi) imei eea eia
          ucs2 uea uia gea ump gpp esm cfg addr).2.2.1.guti.getD
            GUTI.zeroed).gummei.plmn.MNCdigit2 = imsi.digit6 ∧
        ((emm_attach_update d ctx ueid type ksi none (some imsi) imei eea eia
          ucs2 uea uia gea ump gpp esm cfg addr).2.2.1.guti.getD
            GUTI.zeroed).gummei.plmn.MNCdigit3 = imsi.digit4)) ∧
    (¬(cfg.find_mnc_length imsi.digit1 imsi.digit2 imsi.digit3 imsi.digit4
        imsi.digit5 imsi.digit6 = 2 ∨
       cfg.find_mnc_length imsi.digit1 imsi.digit2 imsi.digit3 imsi.digit4
        imsi.digit5 imsi.digit6 = 3) →
      (emm_attach_update d ctx ueid type ksi none (some imsi) imei eea eia
          ucs2 uea uia gea ump gpp esm cfg addr).1 = Status.error) := by
  by_cases h2 : cfg.find_mnc_length imsi.digit1 imsi.digit2 imsi.digit3
      imsi.digit4 imsi.digit5 imsi.digit6 = 2
  · constructor
    · intro _
      rcases hg : ctx.guti with _ | og <;>
        simp [emm_attach_update, hg, h2, update_tail_rc, update_tail_tac,
          update_tail_guti, update_tail_guti_is_new]
    · intro hno
      exact absurd (Or.inl h2) hno
  · by_cases h3 : cfg.find_mnc_length imsi.digit1 imsi.digit2 imsi.digit3
        imsi.digit4 imsi.digit5 imsi.digit6 = 3
    · constructor
      · intro _
        rcases hg : ctx.guti with _ | og <;>
          simp [emm_attach_update, hg, h2, h3, update_tail_rc,
            update_tail_tac, update_tail_guti, update_tail_guti_is_new]
      · intro hno
        exact absurd (Or.inr h3) hno
    · constructor
      · intro h23
        rcases h23 with h | h
        · exact absurd h h2
        · exact absurd h h3
      · intro _
        rcases hg : ctx.guti with _ | og <;>
          simp [emm_attach_update, hg, h2, h3]

/-- Witness for claim C8's amended theorem: the synthesis at the concrete
fixtures (2-digit MNC), through the theorem itself. -/
theorem claim_C8_witness :
    (emm_attach_update dEmptyX ctxNoGutiX 7 AttachType.eps 0 none (some imsiX)
        none 0 0 0 0 0 0 0 0 OctetString.empty cfgX 4).1 = Status.ok ∧
    (emm_attach_update dEmptyX ctxNoGutiX 7 AttachType.eps 0 none (some imsiX)
        none 0 0 0 0 0 0 0 0 OctetString.empty cfgX 4).2.2.1.tac =
      cfgX.gummei_plmn_tac0 ∧
    (emm_attach_update dEmptyX ctxNoGutiX 7 AttachType.eps 0 none (some imsiX)
        none 0 0 0 0 0 0 0 0 OctetString.empty cfgX 4).2.2.1.guti_is_new =
      true ∧
    ((emm_attach_update dEmptyX ctxNoGutiX 7 AttachType.eps 0 none
        (some imsiX) none 0 0 0 0 0 0 0 0 OctetString.empty cfgX
        4).2.2.1.guti.getD GUTI.zeroed).m_tmsi = 4 % 2 ^ 32 := by
  have h := claim_C8_guti_synthesis dEmptyX ctxNoGutiX 7 AttachType.eps 0
    imsiX none 0 0 0 0 0 0 0 0 OctetString.empty cfgX 4
  have h1 := h.1 (Or.inl (by decide))
  exact ⟨h1.1, h1.2.1, h1.2.2.1, h1.2.2.2.2.2.2.1⟩

/-- Claim C9, amended: an emergency Attach Request supplying only an IMEI
(no IMSI, no GUTI, no prior context) never reaches identification — the
context-update step cannot synthesize a GUTI without an IMSI, returns
RETURNerror, and the request is rejected with ILLEGAL_UE (first conjunct:
the whole request trace is the creation, the reject and the release, with no
identify_imei call); _emm_attach_identify itself, when it does run on a
context holding an IMEI and the emergency flag but no IMSI and no GUTI,
validates the UE via mme_api_identify_imei and performs no GUTI reallocation
(second conjunct: the context, its GUTI and guti_is_new are returned
unchanged and no mme_api_new_guti call is made). -/
theorem claim_C9_imei_only_attach :
    (∀ (fuel : Nat) (d : EmmData) (cfg : MmeConfig) (env : Env) (a : ReqArgs),
      cfg.emergency_attach = true →
      emm_data_context_get d a.ueid = none →
      a.guti = none → a.imsi = none → a.imei.isSome = true →
      (emm_proc_attach_request (fuel + 1) d cfg env a).2.2 =
        [Prim.store_add a.ueid (EmmContext.fresh a.ueid),
         Prim.emmas_establish_rej a.ueid EMM_CAUSE_ILLEGAL_UE
           OctetString.empty,
         Prim.store_remove a.ueid,
         Prim.emmreg_proc_abort a.ueid]) ∧
    (∀ (d : EmmData) (ctx : EmmContext) (cfg : MmeConfig) (env : Env)
       (im : Imei),
      ctx.imsi = none → ctx.guti = none → ctx.imei = some im →
      ctx.is_emergency = true → ctx.security = none →
      cfg.unauth_imsi = false → env.identify_imei_rc = Status.ok →
      emm_attach_identify d ctx cfg env =
        (Status.ok, d, some ctx, [Prim.mme_api_identify_imei_call im])) := by
  constructor
  · intro fuel d cfg env a hcfg hget hguti himsi himei
    rcases hta : a.tai with _ | tac <;>
      simp [emm_proc_attach_request, emm_proc_attach_request_continue,
        emm_attach_resolve, emm_attach_update, emm_attach_reject,
        emm_attach_release, hcfg, hget, hguti, himsi, hta,
        EmmContext.fresh, EmmContext.zeroed, EMM_CAUSE_ILLEGAL_UE,
        EMM_CAUSE_SUCCESS, EMM_CAUSE_ESM_FAILURE, NAS_TIMER_INACTIVE_ID,
        OctetString.empty]
  · intro d ctx cfg env im hi hg hie hem hs hcfg hrc
    simp [emm_attach_identify, emm_attach_identify_rest,
      emm_attach_identify_auth, hi, hg, hie, hem, hs, hcfg, hrc]

/-- Witness for claim C9's amended theorem at the concrete fixtures, through
the theorem itself. -/
theorem claim_C9_witness :
    (emm_proc_attach_request 1 dEmptyX cfgX envX reqImeiOnlyX).2.2 =
      [Prim.store_add 5 (EmmContext.fresh 5),
       Prim.emmas_establish_rej 5 EMM_CAUSE_ILLEGAL_UE OctetString.empty,
       Prim.store_remove 5,
       Prim.emmreg_proc_abort 5] ∧
    emm_attach_identify dEmptyX ctxImeiOnlyX cfgX envX =
      (Status.ok, dEmptyX, some ctxImeiOnlyX,
       [Prim.mme_api_identify_imei_call ⟨[9]⟩]) :=
  ⟨claim_C9_imei_only_attach.1 0 dEmptyX cfgX envX reqImeiOnlyX (by decide)
     (by decide) (by decide) (by decide) (by decide),
   claim_C9_imei_only_attach.2 dEmptyX ctxImeiOnlyX cfgX envX ⟨[9]⟩ rfl rfl
     rfl rfl rfl rfl rfl⟩

/-- _emm_attach_accept keeps the ue_id of the context it re-arms. -/
theorem accept_ueid (ctx : EmmContext) (data : AttachData) (env : Env) :
    (emm_attach_accept ctx data env).2.1.ueid = ctx.ueid := by
  unfold emm_attach_accept
  repeat' split
  all_goals simp [apply_ite]

/-- Every _emm_attach_accept call emits exactly one EMMAS_ESTABLISH_CNF. -/
theorem accept_cnf_count (ctx : EmmContext) (data : AttachData) (env : Env) :
    (emm_attach_accept ctx data env).2.2.countP Prim.isEstablishCnf = 1 := by
  unfold emm_attach_accept
  repeat' split
  all_goals simp [Prim.isEstablishCnf, apply_ite]

/-- _emm_attach_accept never emits an EMMAS_ESTABLISH_REJ. -/
theorem accept_rej_count (ctx : EmmContext) (data : AttachData) (env : Env) :
    (emm_attach_accept ctx data env).2.2.countP Prim.isEstablishRej = 0 := by
  unfold emm_attach_accept
  repeat' split
  all_goals simp [Prim.isEstablishRej, apply_ite]

/-- _emm_attach_release never emits an EMMAS_ESTABLISH_CNF. -/
theorem release_cnf_count (d : EmmData) (ctx : EmmContext) (env : Env) :
    (emm_attach_release d ctx env).2.2.countP Prim.isEstablishCnf = 0 := by
  unfold emm_attach_release
  repeat' split
  all_goals simp [Prim.isEstablishCnf, apply_ite]

/-- _emm_attach_release never emits an EMMAS_ESTABLISH_REJ: the abort path
is silent towards the UE. -/
theorem release_rej_count (d : EmmData) (ctx : EmmContext) (env : Env) :
    (emm_attach_release d ctx env).2.2.countP Prim.isEstablishRej = 0 := by
  unfold emm_attach_release
  repeat' split
  all_goals simp [Prim.isEstablishRej, apply_ite]

/-- _emm_attach_abort never emits an EMMAS_ESTABLISH_CNF. -/
theorem abort_cnf_count (d : EmmData) (data : AttachData) (env : Env) :
    (emm_attach_abort d data env).2.2.countP Prim.isEstablishCnf = 0 := by
  unfold emm_attach_abort
  rcases hm : emm_data_context_get d data.ueid with _ | c <;>
    simp only [hm] <;>
    repeat' split
  all_goals simp [Prim.isEstablishCnf, release_cnf_count, List.countP_append,
    apply_ite]

/-- _emm_attach_abort never emits an EMMAS_ESTABLISH_REJ: no ATTACH REJECT
reaches the UE on retransmission exhaustion. -/
theorem abort_rej_count (d : EmmData) (data : AttachData) (env : Env) :
    (emm_attach_abort d data env).2.2.countP Prim.isEstablishRej = 0 := by
  unfold emm_attach_abort
  rcases hm : emm_data_context_get d data.ueid with _ | c <;>
    simp only [hm] <;>
    repeat' split
  all_goals simp [Prim.isEstablishRej, release_rej_count, List.countP_append,
    apply_ite]

/-- T3450 expiry below the retry bound with a live context: the handler is
exactly a retransmission through _emm_attach_accept. -/
theorem handler_retransmit (d : EmmData) (ctx : EmmContext)
    (data : AttachData) (env : Env)
    (hget : emm_data_context_get d data.ueid = some ctx)
    (hlt : data.retransmission_count + 1 < ATTACH_COUNTER_MAX) :
    emm_attach_t3450_handler d data env =
      (emm_data_sync d (emm_attach_accept ctx
         { data with retransmission_count := data.retransmission_count + 1 }
         env).2.1,
       { data with retransmission_count := data.retransmission_count + 1 },
       (emm_attach_accept ctx
         { data with retransmission_count := data.retransmission_count + 1 }
         env).2.2) := by
  unfold emm_attach_t3450_handler
  simp [hget, hlt]

/-- T3450 expiry reaching the retry bound: the handler is exactly an abort
through _emm_attach_abort. -/
theorem handler_abort_at_max (d : EmmData) (data : AttachData) (env : Env)
    (hge : ¬ data.retransmission_count + 1 < ATTACH_COUNTER_MAX) :
    emm_attach_t3450_handler d data env =
      ((emm_attach_abort d
         { data with retransmission_count := data.retransmission_count + 1 }
         env).2.1,
       { data with retransmission_count := data.retransmission_count + 1 },
       (emm_attach_abort d
         { data with retransmission_count := data.retransmission_count + 1 }
         env).2.2) := by
  unfold emm_attach_t3450_handler
  simp [hge]

/-- Claim C2: each T3450 expiry increments the bound retransmission buffer's
counter by one; while the counter is below ATTACH_COUNTER_MAX = 5 the ATTACH
ACCEPT is retransmitted via _emm_attach_accept, and on reaching 5 the
procedure is aborted via _emm_attach_abort.  Hence a UE that never sends
ATTACH COMPLETE after receiving ATTACH ACCEPT receives exactly 4
retransmissions (one EMMAS_ESTABLISH_CNF on each of the first four expiries,
none on the fifth) and is then aborted silently: no expiry ever emits an
EMMAS_ESTABLISH_REJ towards the UE. -/
theorem claim_C2_t3450_retry_bound (d : EmmData) (ctx : EmmContext)
    (data : AttachData) (env : Env) :
    ((emm_attach_t3450_handler d data env).2.1.retransmission_count =
      data.retransmission_count + 1) ∧
    (emm_data_context_get d data.ueid = some ctx →
     data.retransmission_count + 1 < ATTACH_COUNTER_MAX →
     emm_attach_t3450_handler d data env =
       (emm_data_sync d (emm_attach_accept ctx
          { data with retransmission_count := data.retransmission_count + 1 }
          env).2.1,
        { data with retransmission_count := data.retransmission_count + 1 },
        (emm_attach_accept ctx
          { data with retransmission_count := data.retransmission_count + 1 }
          env).2.2)) ∧
    (¬ data.retransmission_count + 1 < ATTACH_COUNTER_MAX →
     emm_attach_t3450_handler d data env =
       ((emm_attach_abort d
          { data with retransmission_count := data.retransmission_count + 1 }
          env).2.1,
        { data with retransmission_count := data.retransmission_count + 1 },
        (emm_attach_abort d
          { data with retransmission_count := data.retransmission_count + 1 }
          env).2.2)) ∧
    (emm_data_context_get d data.ueid = some ctx → ctx.ueid = data.ueid →
     data.retransmission_count = 0 →
     ((t3450_expiries 5 d data env).2.2.map
        (fun tr => tr.countP Prim.isEstablishCnf) = [1, 1, 1, 1, 0] ∧
      (t3450_expiries 5 d data env).2.2.all
        (fun tr => tr.countP Prim.isEstablishRej == 0) = true)) := by
  refine ⟨?_, ?_, ?_, ?_⟩
  · unfold emm_attach_t3450_handler
    by_cases h : data.retransmission_count + 1 < ATTACH_COUNTER_MAX <;>
      rcases hm : emm_data_context_get d data.ueid with _ | c <;>
        simp [h, hm]
  · intro hget hlt
    exact handler_retransmit d ctx data env hget hlt
  · intro hge
    exact handler_abort_at_max d data env hge
  · intro hget hue h0
    rcases data with ⟨u, cnt, em⟩
    simp only at h0
    subst h0
    simp only at hget hue
    -- the four retransmissions and the final abort, step by step
    have e1 := handler_retransmit d ctx ⟨u, 0, em⟩ env hget (by simp [ATTACH_COUNTER_MAX])
    set c1 := (emm_attach_accept ctx ⟨u, 1, em⟩ env).2.1 with hc1
    have hget1 : emm_data_context_get (emm_data_sync d c1) u = some c1 :=
      get_sync_of_get d u ctx c1 hget (by rw [hc1, accept_ueid]; exact hue)
    set d1 := emm_data_sync d c1 with hd1
    have e2 := handler_retransmit d1 c1 ⟨u, 1, em⟩ env hget1 (by simp [ATTACH_COUNTER_MAX])
    set c2 := (emm_attach_accept c1 ⟨u, 2, em⟩ env).2.1 with hc2
    have hue1 : c1.ueid = u := by rw [hc1, accept_ueid]; exact hue
    have hget2 : emm_data_context_get (emm_data_sync d1 c2) u = some c2 :=
      get_sync_of_get d1 u c1 c2 hget1 (by rw [hc2, accept_ueid]; exact hue1)
    set d2 := emm_data_sync d1 c2 with hd2
    have e3 := handler_retransmit d2 c2 ⟨u, 2, em⟩ env hget2 (by simp [ATTACH_COUNTER_MAX])
    set c3 := (emm_attach_accept c2 ⟨u, 3, em⟩ env).2.1 with hc3
    have hue2 : c2.ueid = u := by rw [hc2, accept_ueid]; exact hue1
    have hget3 : emm_data_context_get (emm_data_sync d2 c3) u = some c3 :=
      get_sync_of_get d2 u c2 c3 hget2 (by rw [hc3, accept_ueid]; exact hue2)
    set d3 := emm_data_sync d2 c3 with hd3
    have e4 := handler_retransmit d3 c3 ⟨u, 3, em⟩ env hget3 (by simp [ATTACH_COUNTER_MAX])
    set c4 := (emm_attach_accept c3 ⟨u, 4, em⟩ env).2.1 with hc4
    set d4 := emm_data_sync d3 c4 with hd4
    have e5 := handler_abort_at_max d4 ⟨u, 4, em⟩ env (by simp [ATTACH_COUNTER_MAX])
    simp only [t3450_expiries, e1, e2, e3, e4, e5]
    simp [accept_cnf_count, accept_rej_count, abort_cnf_count,
      abort_rej_count]

/-- Witness for claim C2 at the concrete fixtures, through the theorem
itself. -/
theorem claim_C2_witness :
    emm_data_context_get dX dataX.ueid = some ctxX ∧ ctxX.ueid = dataX.ueid ∧
    dataX.retransmission_count = 0 ∧
    ((t3450_expiries 5 dX dataX envX).2.2.map
       (fun tr => tr.countP Prim.isEstablishCnf) = [1, 1, 1, 1, 0] ∧
     (t3450_expiries 5 dX dataX envX).2.2.all
       (fun tr => tr.countP Prim.isEstablishRej == 0) = true) :=
  ⟨by decide, by decide, by decide,
   (claim_C2_t3450_retry_bound dX ctxX dataX envX).2.2.2 (by decide)
     (by decide) (by decide)⟩

/-- _emm_attach_update with a UE-provided GUTI always succeeds. -/
theorem update_guti_some_rc (d : EmmData) (ctx : EmmContext) (ueid : Nat)
    (type : AttachType) (ksi : Int) (g : GUTI) (imsi : Option Imsi)
    (imei : Option Imei) (eea eia ucs2 uea uia gea ump gpp : Int)
    (esm : OctetString) (cfg : MmeConfig) (addr : Nat) :
    (emm_attach_update d ctx ueid type ksi (some g) imsi imei eea eia ucs2
        uea uia gea ump gpp esm cfg addr).1 = Status.ok := by
  unfold emm_attach_update
  rcases hcg : ctx.guti with _ | og <;> simp [hcg, update_tail_rc]

/-- _emm_attach_update never touches the security context. -/
theorem update_guti_some_security (d : EmmData) (ctx : EmmContext)
    (ueid : Nat) (type : AttachType) (ksi : Int) (g : GUTI)
    (imsi : Option Imsi) (imei : Option Imei)
    (eea eia ucs2 uea uia gea ump gpp : Int) (esm : OctetString)
    (cfg : MmeConfig) (addr : Nat) :
    (emm_attach_update d ctx ueid type ksi (some g) imsi imei eea eia ucs2
        uea uia gea ump gpp esm cfg addr).2.2.1.security = ctx.security := by
  unfold emm_attach_update
  rcases hcg : ctx.guti with _ | og <;> simp [hcg, update_tail_security]

/-- _emm_attach_update derives is_emergency from the attach type. -/
theorem update_guti_some_is_emergency (d : EmmData) (ctx : EmmContext)
    (ueid : Nat) (type : AttachType) (ksi : Int) (g : GUTI)
    (imsi : Option Imsi) (imei : Option Imei)
    (eea eia ucs2 uea uia gea ump gpp : Int) (esm : OctetString)
    (cfg : MmeConfig) (addr : Nat) :
    (emm_attach_update d ctx ueid type ksi (some g) imsi imei eea eia ucs2
        uea uia gea ump gpp esm cfg addr).2.2.1.is_emergency =
      decide (type = AttachType.emergency) := by
  unfold emm_attach_update
  rcases hcg : ctx.guti with _ | og <;> simp [hcg, update_tail_is_emergency]

/-- _emm_attach_update installs the request IMSI when present. -/
theorem update_guti_some_imsi (d : EmmData) (ctx : EmmContext) (ueid : Nat)
    (type : AttachType) (ksi : Int) (g : GUTI) (i : Imsi)
    (imei : Option Imei) (eea eia ucs2 uea uia gea ump gpp : Int)
    (esm : OctetString) (cfg : MmeConfig) (addr : Nat) :
    (emm_attach_update d ctx ueid type ksi (some g) (some i) imei eea eia
        ucs2 uea uia gea ump gpp esm cfg addr).2.2.1.imsi = some i := by
  unfold emm_attach_update
  rcases hcg : ctx.guti with _ | og <;> simp [hcg, update_tail_imsi]

/-- _emm_attach_update with a UE-provided GUTI emits no EMMREG_PROC_ABORT
(its only events are GUTI-index operations). -/
theorem update_guti_some_no_abort (d : EmmData) (ctx : EmmContext)
    (ueid : Nat) (type : AttachType) (ksi : Int) (g : GUTI)
    (imsi : Option Imsi) (imei : Option Imei)
    (eea eia ucs2 uea uia gea ump gpp : Int) (esm : OctetString)
    (cfg : MmeConfig) (addr : Nat) :
    (emm_attach_update d ctx ueid type ksi (some g) imsi imei eea eia ucs2
        uea uia gea ump gpp esm cfg addr).2.2.2.countP Prim.isProcAbort =
      0 := by
  unfold emm_attach_update
  rcases hcg : ctx.guti with _ | og <;>
    simp [hcg, update_tail_trace, Prim.isProcAbort]

/-- _emm_attach_identify on a context holding an IMSI but no security
context (the EPC build): the authentication vector is requested
asynchronously and the context is left untouched. -/
theorem identify_pending_auth (d : EmmData) (ctx : EmmContext)
    (cfg : MmeConfig) (env : Env) (i : Imsi) (hi : ctx.imsi = some i)
    (hs : ctx.security = none) (he : ctx.is_emergency = false) :
    emm_attach_identify d ctx cfg env =
      (Status.ok, d, some ctx,
       [Prim.nas_itti_auth_info_req_call ctx.ueid i]) := by
  simp [emm_attach_identify, emm_attach_identify_rest,
    emm_attach_identify_auth, hi, hs, he]

/-- The non-duplicate continuation with an existing stored context, a
UE-provided GUTI and IMSI, no security context and a non-emergency type
proceeds to the pending authentication-vector fetch and emits no
EMMREG_PROC_ABORT. -/
theorem continue_pending_auth_no_abort (d : EmmData) (c : EmmContext)
    (cfg : MmeConfig) (env : Env) (a : ReqArgs)
    (hgu : a.guti.isSome = true) (him : a.imsi.isSome = true)
    (hsec : c.security = none) (htype : a.type ≠ AttachType.emergency) :
    (emm_proc_attach_request_continue d (some c) cfg env
        a).2.2.countP Prim.isProcAbort = 0 := by
  rcases hg : a.guti with _ | g
  · rw [hg] at hgu; simp at hgu
  rcases hi : a.imsi with _ | i
  · rw [hi] at him; simp at him
  rcases hta : a.tai with _ | tc <;>
    simp [emm_proc_attach_request_continue, emm_attach_resolve, hg, hi, hta,
      update_guti_some_rc, update_guti_some_security,
      update_guti_some_is_emergency, update_guti_some_imsi,
      update_guti_some_no_abort, identify_pending_auth, hsec, htype,
      Prim.isProcAbort, List.countP_append]

/-- Claim C4: for an Attach Request arriving while a context exists for the
same ue_id with FSM status above DEREGISTERED — (i) if the parameter-change
detector reports CHANGED (and the PROC_ABORT notification is accepted), one
EMMREG_PROC_ABORT is emitted and the entry point is re-entered in tail
position on the store in which the abort cleared the context; (ii) the
re-entered call is the plain non-duplicate continuation regardless of the
fuel — it neither arbitrates again nor recurses, so the recursion is not
unbounded; (iii) if the detector reports unchanged, the request is
acknowledged silently with RETURNok, no primitive is emitted and the store
(contexts and timers) is returned unchanged; (iv) when the re-entered cycle
proceeds to the pending authentication-vector fetch (UE-provided GUTI and
IMSI, no security context, non-emergency type), the complete run emits
exactly one EMMREG_PROC_ABORT.  The effect of the abort on the context is
modelled from the spec (emm_reg_proc_abort_effect). -/
theorem claim_C4_duplicate_vs_changed (fuel : Nat) (d : EmmData)
    (cfg : MmeConfig) (env : Env) (a : ReqArgs) (c : EmmContext)
    (hpol : ¬(¬ cfg.emergency_attach = true ∧ a.type = AttachType.emergency))
    (hget : emm_data_context_get d a.ueid = some c)
    (hue : c.ueid = a.ueid)
    (hfsm : c.fsm_status.toNat > EmmFsmStatus.DEREGISTERED.toNat) :
    (emm_attach_have_changed c a.type a.ksi a.guti a.imsi a.imei a.eea a.eia
        a.ucs2 a.uea a.uia a.gea a.umts_present a.gprs_present = true →
     env.emm_sap_send (Prim.emmreg_proc_abort a.ueid) ≠ Status.error →
     emm_proc_attach_request (fuel + 2) d cfg env a =
       ((emm_proc_attach_request (fuel + 1)
           (emm_data_sync d (emm_reg_proc_abort_effect c)) cfg env a).1,
        (emm_proc_attach_request (fuel + 1)
           (emm_data_sync d (emm_reg_proc_abort_effect c)) cfg env a).2.1,
        Prim.emmreg_proc_abort a.ueid ::
          (emm_proc_attach_request (fuel + 1)
             (emm_data_sync d (emm_reg_proc_abort_effect c)) cfg env
             a).2.2)) ∧
    (∀ f : Nat,
      emm_proc_attach_request (f + 1)
          (emm_data_sync d (emm_reg_proc_abort_effect c)) cfg env a =
        emm_proc_attach_request_continue
          (emm_data_sync d (emm_reg_proc_abort_effect c))
          (some (emm_reg_proc_abort_effect c)) cfg env a) ∧
    (emm_attach_have_changed c a.type a.ksi a.guti a.imsi a.imei a.eea a.eia
        a.ucs2 a.uea a.uia a.gea a.umts_present a.gprs_present = false →
     emm_proc_attach_request (fuel + 1) d cfg env a = (Status.ok, d, [])) ∧
    (emm_attach_have_changed c a.type a.ksi a.guti a.imsi a.imei a.eea a.eia
        a.ucs2 a.uea a.uia a.gea a.umts_present a.gprs_present = true →
     env.emm_sap_send (Prim.emmreg_proc_abort a.ueid) ≠ Status.error →
     a.guti.isSome = true → a.imsi.isSome = true →
     (emm_reg_proc_abort_effect c).security = none →
     a.type ≠ AttachType.emergency →
     (emm_proc_attach_request (fuel + 2) d cfg env a).2.2.countP
        Prim.isProcAbort = 1) := by
  have heff : (emm_reg_proc_abort_effect c).ueid = a.ueid := by
    simp [emm_reg_proc_abort_effect, hue]
  have hpol' : ¬(cfg.emergency_attach = false ∧
      a.type = AttachType.emergency) := by
    simpa using hpol
  have hget1 : emm_data_context_get
      (emm_data_sync d (emm_reg_proc_abort_effect c)) a.ueid =
      some (emm_reg_proc_abort_effect c) :=
    get_sync_of_get d a.ueid c (emm_reg_proc_abort_effect c) hget heff
  have hinner : ∀ f : Nat,
      emm_proc_attach_request (f + 1)
          (emm_data_sync d (emm_reg_proc_abort_effect c)) cfg env a =
        emm_proc_attach_request_continue
          (emm_data_sync d (emm_reg_proc_abort_effect c))
          (some (emm_reg_proc_abort_effect c)) cfg env a := by
    intro f
    have hfsm1 : (emm_reg_proc_abort_effect c).fsm_status =
        EmmFsmStatus.DEREGISTERED := rfl
    simp [emm_proc_attach_request, hpol', hget1, hfsm1, EmmFsmStatus.toNat]
  have houter : emm_attach_have_changed c a.type a.ksi a.guti a.imsi a.imei
      a.eea a.eia a.ucs2 a.uea a.uia a.gea a.umts_present a.gprs_present =
        true →
      env.emm_sap_send (Prim.emmreg_proc_abort a.ueid) ≠ Status.error →
      emm_proc_attach_request (fuel + 2) d cfg env a =
        ((emm_proc_attach_request (fuel + 1)
            (emm_data_sync d (emm_reg_proc_abort_effect c)) cfg env a).1,
         (emm_proc_attach_request (fuel + 1)
            (emm_data_sync d (emm_reg_proc_abort_effect c)) cfg env a).2.1,
         Prim.emmreg_proc_abort a.ueid ::
           (emm_proc_attach_request (fuel + 1)
              (emm_data_sync d (emm_reg_proc_abort_effect c)) cfg env
              a).2.2) := by
    intro hch hsap
    conv_lhs => rw [show fuel + 2 = (fuel + 1) + 1 from rfl]
    simp [emm_proc_attach_request, hpol', hget, hfsm, hch, hsap]
  refine ⟨houter, hinner, ?_, ?_⟩
  · intro hch
    simp [emm_proc_attach_request, hpol', hget, hfsm, hch]
  · intro hch hsap hgu him hsec htype
    rw [houter hch hsap]
    simp only [hinner fuel]
    have h0 := continue_pending_auth_no_abort
      (emm_data_sync d (emm_reg_proc_abort_effect c))
      (emm_reg_proc_abort_effect c) cfg env a hgu him hsec htype
    simp [List.countP_cons, Prim.isProcAbort, h0]

/-- Witness for claim C4 at the concrete fixtures, through the theorem
itself: the changed request is re-entered with exactly one abort and the
duplicate request is acknowledged silently. -/
theorem claim_C4_witness :
    (emm_proc_attach_request 3 dRegX cfgX envX reqChangedX).2.2.countP
        Prim.isProcAbort = 1 ∧
    emm_proc_attach_request 2 dRegX cfgX envX reqDupX =
      (Status.ok, dRegX, []) :=
  ⟨(claim_C4_duplicate_vs_changed 1 dRegX cfgX envX reqChangedX ctxRegX
      (by decide) (by decide) (by decide) (by decide)).2.2.2 (by decide)
      (by decide) (by decide) (by decide) (by decide) (by decide),
   (claim_C4_duplicate_vs_changed 1 dRegX cfgX envX reqDupX ctxRegX
      (by decide) (by decide) (by decide) (by decide)).2.2.1 (by decide)⟩

/-- The context surviving _emm_attach_reject, when any, is the input
context with at most its emm_cause defaulted. -/
theorem reject_ctx_cases (d : EmmData) (ctx : EmmContext) (env : Env) :
    (emm_attach_reject d ctx env).2.2.1 = none ∨
    (emm_attach_reject d ctx env).2.2.1 = some ctx ∨
    (emm_attach_reject d ctx env).2.2.1 =
      some { ctx with emm_cause := EMM_CAUSE_ILLEGAL_UE } := by
  unfold emm_attach_reject
  have hIE : EMM_CAUSE_ILLEGAL_UE ≠ EMM_CAUSE_ESM_FAILURE := by decide
  have hES : EMM_CAUSE_ESM_FAILURE ≠ EMM_CAUSE_SUCCESS := by decide
  by_cases hS : ctx.emm_cause = EMM_CAUSE_SUCCESS <;>
    by_cases hL : 0 < ctx.esm_msg.length <;>
      by_cases hEF : ctx.emm_cause = EMM_CAUSE_ESM_FAILURE <;>
        by_cases hdyn : ctx.is_dynamic <;>
          simp [hS, hL, hEF, hdyn, hIE, hES]

/-- _emm_attach_reject never changes the network-attachment indicator of a
surviving context. -/
theorem reject_preserves_is_attached (d : EmmData) (ctx : EmmContext)
    (env : Env) (c' : EmmContext)
    (h : (emm_attach_reject d ctx env).2.2.1 = some c') :
    c'.is_attached = ctx.is_attached := by
  rcases reject_ctx_cases d ctx env with hc | hc | hc <;> rw [hc] at h
  · simp at h
  · simp only [Option.some.injEq] at h
    subst h
    rfl
  · simp only [Option.some.injEq] at h
    subst h
    rfl

/-- A released (none) context stays none through the closing check of
_emm_attach. -/
theorem finish_none (d : EmmData) (rc : Status) (mdata : Option AttachData)
    (tr : List Prim) (env : Env) :
    (emm_attach_finish d rc none mdata tr env).2.2.1 = none := by
  unfold emm_attach_finish
  split <;> rfl

/-- The closing check of _emm_attach never changes the network-attachment
indicator of a surviving context. -/
theorem finish_preserves_is_attached (d : EmmData) (rc : Status)
    (mctx : Option EmmContext) (mdata : Option AttachData) (tr : List Prim)
    (env : Env) (c' cb : EmmContext) (hm : mctx = some cb)
    (h : (emm_attach_finish d rc mctx mdata tr env).2.2.1 = some c') :
    c'.is_attached = cb.is_attached := by
  subst hm
  unfold emm_attach_finish at h
  split at h
  · exact (reject_preserves_is_attached _ _ _ _ h).trans rfl
  · simp only [Option.some.injEq] at h
    subst h
    rfl

/-- _emm_attach_security never changes the network-attachment indicator of a
surviving context. -/
theorem security_preserves_is_attached (d : EmmData) (ctx : EmmContext)
    (env : Env) (c' : EmmContext)
    (h : (emm_attach_security d ctx env).2.2.1 = some c') :
    c'.is_attached = ctx.is_attached := by
  unfold emm_attach_security at h
  dsimp only at h
  split at h
  · exact (reject_preserves_is_attached _ _ _ _ h).trans rfl
  · simp only [Option.some.injEq] at h
    subst h
    rfl

/-- The closing check applied to a reject result never changes the
network-attachment indicator of a surviving context. -/
theorem finish_of_reject_preserves (d : EmmData) (ctx0 : EmmContext)
    (env : Env) (tr : List Prim) (mdata : Option AttachData)
    (c' : EmmContext)
    (h : (emm_attach_finish (emm_attach_reject d ctx0 env).2.1
        (emm_attach_reject d ctx0 env).1
        (emm_attach_reject d ctx0 env).2.2.1 mdata tr env).2.2.1 =
      some c') :
    c'.is_attached = ctx0.is_attached := by
  rcases hr : (emm_attach_reject d ctx0 env).2.2.1 with _ | cb
  · rw [hr, finish_none] at h
    simp at h
  · rw [hr] at h
    exact (finish_preserves_is_attached _ _ _ _ _ _ _ _ rfl h).trans
      (reject_preserves_is_attached _ _ _ _ hr)

/-- _emm_attach never changes the network-attachment indicator of a
surviving context. -/
theorem attach_preserves_is_attached (d : EmmData) (ctx : EmmContext)
    (env : Env) (c' : EmmContext)
    (h : (emm_attach d ctx env).2.2.1 = some c') :
    c'.is_attached = ctx.is_attached := by
  unfold emm_attach at h
  dsimp only at h
  simp only [ORIGINAL_CODE, Bool.false_eq_true, if_false] at h
  split at h
  · split at h
    · simp only [Option.some.injEq] at h
      subst h
      rfl
    · simp only [Option.some.injEq] at h
      subst h
      rfl
  · split at h
    · exact (finish_of_reject_preserves _ _ _ _ _ _ h).trans rfl
    · simp only [Option.some.injEq] at h
      subst h
      rfl

/-- The authentication dispatch of _emm_attach_identify never changes the
network-attachment indicator of a surviving context. -/
theorem auth_preserves_is_attached (d : EmmData) (ctx1 : EmmContext)
    (cfg : MmeConfig) (env : Env) (rc1 : Status) (tr1 : List Prim)
    (c' : EmmContext)
    (h : (emm_attach_identify_auth d ctx1 cfg env rc1 tr1).2.2.1 = some c') :
    c'.is_attached = ctx1.is_attached := by
  unfold emm_attach_identify_auth at h
  dsimp only at h
  by_cases h1 : rc1 ≠ Status.error
  · rw [if_pos h1] at h
    by_cases h2 : ctx1.security.isSome = true
    · rw [if_pos h2] at h
      split at h
      · split at h
        · rename_i c2 heq
          exact (reject_preserves_is_attached _ _ _ _ h).trans
            (attach_preserves_is_attached _ _ _ _ heq)
        · simp at h
      · exact attach_preserves_is_attached _ _ _ _ h
    · rw [if_neg h2] at h
      by_cases h3 : ctx1.is_emergency = true ∧ cfg.unauth_imsi = true
      · rw [if_pos h3] at h
        split at h
        · split at h
          · rename_i c2 heq
            exact (reject_preserves_is_attached _ _ _ _ h).trans
              (security_preserves_is_attached _ _ _ _ heq)
          · simp at h
        · exact security_preserves_is_attached _ _ _ _ h
      · rw [if_neg h3] at h
        split at h
        · exact (reject_preserves_is_attached _ _ _ _ h).trans rfl
        · simp only [Option.some.injEq] at h
          subst h
          rfl
  · rw [if_neg h1] at h
    split at h
    · exact (reject_preserves_is_attached _ _ _ _ h).trans rfl
    · simp only [Option.some.injEq] at h
      subst h
      rfl

/-- The second half of _emm_attach_identify never changes the
network-attachment indicator of a surviving context. -/
theorem rest_preserves_is_attached (d : EmmData) (ctx : EmmContext)
    (cfg : MmeConfig) (env : Env) (rc : Status) (gr : Bool) (tr : List Prim)
    (c' : EmmContext)
    (h : (emm_attach_identify_rest d ctx cfg env rc gr tr).2.2.1 = some c') :
    c'.is_attached = ctx.is_attached := by
  unfold emm_attach_identify_rest at h
  dsimp only at h
  by_cases h1 : rc ≠ Status.error ∧ gr = true
  · rw [if_pos h1] at h
    by_cases h2 : env.new_guti_res.rc ≠ Status.ok
    · rw [if_pos h2] at h
      exact (auth_preserves_is_attached _ _ _ _ _ _ _ h).trans rfl
    · rw [if_neg h2] at h
      exact (auth_preserves_is_attached _ _ _ _ _ _ _ h).trans rfl
  · rw [if_neg h1] at h
    exact (auth_preserves_is_attached _ _ _ _ _ _ _ h).trans rfl

/-- _emm_attach_identify never changes the network-attachment indicator of a
surviving context. -/
theorem identify_preserves_is_attached (d : EmmData) (ctx : EmmContext)
    (cfg : MmeConfig) (env : Env) (c' : EmmContext)
    (h : (emm_attach_identify d ctx cfg env).2.2.1 = some c') :
    c'.is_attached = ctx.is_attached := by
  unfold emm_attach_identify at h
  rcases hi : ctx.imsi with _ | i
  · rw [hi] at h
    dsimp only at h
    rcases hg : ctx.guti with _ | g
    · rw [hg] at h
      dsimp only at h
      rcases him : ctx.imei with _ | im
      · rw [him] at h
        dsimp only at h
        exact (rest_preserves_is_attached _ _ _ _ _ _ _ _ h).trans rfl
      · rw [him] at h
        dsimp only at h
        by_cases hie : ctx.is_emergency = true
        · rw [if_pos hie] at h
          refine (rest_preserves_is_attached _ _ _ _ _ _ _ _ h).trans ?_
          split <;> rfl
        · rw [if_neg hie] at h
          exact (rest_preserves_is_attached _ _ _ _ _ _ _ _ h).trans rfl
    · rw [hg] at h
      dsimp only at h
      by_cases hrc : env.identification_rc ≠ Status.ok
      · rw [if_pos hrc] at h
        exact (reject_preserves_is_attached _ _ _ _ h).trans rfl
      · rw [if_neg hrc] at h
        simp only [Option.some.injEq] at h
        subst h
        rfl
  · rw [hi] at h
    dsimp only at h
    by_cases hs : ctx.security.isNone = true
    · rw [if_pos hs] at h
      exact rest_preserves_is_attached _ _ _ _ _ _ _ _ h
    · rw [if_neg hs] at h
      refine (rest_preserves_is_attached _ _ _ _ _ _ _ _ h).trans ?_
      split <;> rfl

/-- A successful _emm_attach_update always ends in the tail that clears
is_attached. -/
theorem update_ok_clears_is_attached (d : EmmData) (ctx : EmmContext)
    (ueid : Nat) (type : AttachType) (ksi : Int) (guti : Option GUTI)
    (imsi : Option Imsi) (imei : Option Imei)
    (eea eia ucs2 uea uia gea ump gpp : Int) (esm : OctetString)
    (cfg : MmeConfig) (addr : Nat)
    (h : (emm_attach_update d ctx ueid type ksi guti imsi imei eea eia ucs2
        uea uia gea ump gpp esm cfg addr).1 = Status.ok) :
    (emm_attach_update d ctx ueid type ksi guti imsi imei eea eia ucs2 uea
        uia gea ump gpp esm cfg addr).2.2.1.is_attached = false := by
  rcases guti with _ | g
  · rcases imsi with _ | i
    · rcases hg : ctx.guti with _ | og <;>
        simp [emm_attach_update, hg] at h
    · by_cases hm : cfg.find_mnc_length i.digit1 i.digit2 i.digit3 i.digit4
          i.digit5 i.digit6 = 2 ∨
        cfg.find_mnc_length i.digit1 i.digit2 i.digit3 i.digit4 i.digit5
          i.digit6 = 3
      · rcases hg : ctx.guti with _ | og <;>
          simp [emm_attach_update, hg, hm, update_tail_is_attached]
      · rcases hg : ctx.guti with _ | og <;>
          simp [emm_attach_update, hg, hm] at h
  · rcases hg : ctx.guti with _ | og <;>
      simp [emm_attach_update, hg, update_tail_is_attached]

/-- The stored context after emm_proc_attach_complete, for a registered
ue_id: the T3450/GUTI housekeeping is always applied, and is_attached is set
exactly when the forwarded ESM confirm neither fails nor errs. -/
theorem complete_store_behaviour (d : EmmData) (u : Nat) (msg : OctetString)
    (dataOpt : Option AttachData) (env : Env) (serr : EsmSapErr)
    (c : EmmContext) (hu : 0 < u) (hget : emm_data_context_get d u = some c)
    (hue : c.ueid = u) :
    ((env.esm_sap_send (Prim.esm_default_eps_bearer_context_activate_cnf u
        msg)).rc ≠ Status.error ∧
     (env.esm_sap_send (Prim.esm_default_eps_bearer_context_activate_cnf u
        msg)).err = EsmSapErr.success →
      emm_data_context_get
          (emm_proc_attach_complete d u msg dataOpt env serr).2.1 u =
        some { c with
               T3450 := { c.T3450 with id := NAS_TIMER_INACTIVE_ID },
               guti_is_new := false, old_guti := none,
               is_attached := true }) ∧
    (¬((env.esm_sap_send (Prim.esm_default_eps_bearer_context_activate_cnf u
        msg)).rc ≠ Status.error ∧
       (env.esm_sap_send (Prim.esm_default_eps_bearer_context_activate_cnf u
        msg)).err = EsmSapErr.success) →
      emm_data_context_get
          (emm_proc_attach_complete d u msg dataOpt env serr).2.1 u =
        some { c with
               T3450 := { c.T3450 with id := NAS_TIMER_INACTIVE_ID },
               guti_is_new := false, old_guti := none }) := by
  unfold emm_proc_attach_complete
  dsimp only
  rw [if_pos hu, hget]
  dsimp only
  constructor
  · intro hs
    rw [if_pos hs]
    exact get_sync_of_get _ u _ _ (get_sync_of_get d u c _ hget hue) hue
  · intro hs
    rw [if_neg hs]
    split
    · exact get_sync_of_get d u c _ hget hue
    · exact get_sync_of_get d u c _ hget hue

/-- Claim C10: every successful run of _emm_attach_update ends by clearing
is_attached; hence any surviving context of the non-duplicate attach
pipeline (update followed by _emm_attach_identify) has is_attached false;
and emm_proc_attach_complete sets it back to true exactly when the forwarded
ESM default-bearer-activate confirm neither fails nor errs, leaving it
untouched otherwise. -/
theorem claim_C10_is_attached_protocol :
    (∀ (d : EmmData) (ctx : EmmContext) (ueid : Nat) (type : AttachType)
       (ksi : Int) (guti : Option GUTI) (imsi : Option Imsi)
       (imei : Option Imei) (eea eia ucs2 uea uia gea ump gpp : Int)
       (esm : OctetString) (cfg : MmeConfig) (addr : Nat),
       (emm_attach_update d ctx ueid type ksi guti imsi imei eea eia ucs2
           uea uia gea ump gpp esm cfg addr).1 = Status.ok →
       (emm_attach_update d ctx ueid type ksi guti imsi imei eea eia ucs2
           uea uia gea ump gpp esm cfg addr).2.2.1.is_attached = false) ∧
    (∀ (d dI : EmmData) (ctx : EmmContext) (ueid : Nat) (type : AttachType)
       (ksi : Int) (guti : Option GUTI) (imsi : Option Imsi)
       (imei : Option Imei) (eea eia ucs2 uea uia gea ump gpp : Int)
       (esm : OctetString) (cfg : MmeConfig) (env : Env) (addr : Nat)
       (c' : EmmContext),
       (emm_attach_update d ctx ueid type ksi guti imsi imei eea eia ucs2
           uea uia gea ump gpp esm cfg addr).1 = Status.ok →
       (emm_attach_identify dI
           (emm_attach_update d ctx ueid type ksi guti imsi imei eea eia
             ucs2 uea uia gea ump gpp esm cfg addr).2.2.1 cfg
           env).2.2.1 = some c' →
       c'.is_attached = false) ∧
    (∀ (d : EmmData) (u : Nat) (msg : OctetString)
       (dataOpt : Option AttachData) (env : Env) (serr : EsmSapErr)
       (c : EmmContext), 0 < u → emm_data_context_get d u = some c →
       c.ueid = u →
       ((env.esm_sap_send (Prim.esm_default_eps_bearer_context_activate_cnf
            u msg)).rc ≠ Status.error ∧
        (env.esm_sap_send (Prim.esm_default_eps_bearer_context_activate_cnf
            u msg)).err = EsmSapErr.success →
         emm_data_context_get
             (emm_proc_attach_complete d u msg dataOpt env serr).2.1 u =
           some { c with
                  T3450 := { c.T3450 with id := NAS_TIMER_INACTIVE_ID },
                  guti_is_new := false, old_guti := none,
                  is_attached := true }) ∧
       (¬((env.esm_sap_send (Prim.esm_default_eps_bearer_context_activate_cnf
            u msg)).rc ≠ Status.error ∧
          (env.esm_sap_send (Prim.esm_default_eps_bearer_context_activate_cnf
            u msg)).err = EsmSapErr.success) →
         emm_data_context_get
             (emm_proc_attach_complete d u msg dataOpt env serr).2.1 u =
           some { c with
                  T3450 := { c.T3450 with id := NAS_TIMER_INACTIVE_ID },
                  guti_is_new := false, old_guti := none })) := by
  refine ⟨update_ok_clears_is_attached, ?_, complete_store_behaviour⟩
  intro d dI ctx ueid type ksi guti imsi imei eea eia ucs2 uea uia gea ump
    gpp esm cfg env addr c' h1 h2
  exact (identify_preserves_is_attached _ _ _ _ _ h2).trans
    (update_ok_clears_is_attached d ctx ueid type ksi guti imsi imei eea
      eia ucs2 uea uia gea ump gpp esm cfg addr h1)

/-- Witness for claim C10, at the concrete fixtures: a successful update
clears is_attached; the surviving context of the following identification
still has it cleared; and the complete with a succeeding ESM confirm sets it
in the store. -/
theorem claim_C10_witness :
    ((emm_attach_update dEmptyX ctxNoGutiX 7 AttachType.eps 0 none
        (some imsiX) none 0 0 0 0 0 0 0 0 OctetString.empty cfgX
        4).1 = Status.ok ∧
     (emm_attach_update dEmptyX ctxNoGutiX 7 AttachType.eps 0 none
        (some imsiX) none 0 0 0 0 0 0 0 0 OctetString.empty cfgX
        4).2.2.1.is_attached = false) ∧
    ((emm_attach_identify dEmptyX
        (emm_attach_update dEmptyX ctxNoGutiX 7 AttachType.eps 0 none
          (some imsiX) none 0 0 0 0 0 0 0 0 OctetString.empty cfgX
          4).2.2.1 cfgX envX).2.2.1 =
      some ((emm_attach_identify dEmptyX
        (emm_attach_update dEmptyX ctxNoGutiX 7 AttachType.eps 0 none
          (some imsiX) none 0 0 0 0 0 0 0 0 OctetString.empty cfgX
          4).2.2.1 cfgX envX).2.2.1.getD (EmmContext.zeroed 0)) ∧
     ((emm_attach_identify dEmptyX
        (emm_attach_update dEmptyX ctxNoGutiX 7 AttachType.eps 0 none
          (some imsiX) none 0 0 0 0 0 0 0 0 OctetString.empty cfgX
          4).2.2.1 cfgX envX).2.2.1.getD
          (EmmContext.zeroed 0)).is_attached = false) ∧
    (0 < 7 ∧
     emm_data_context_get dX 7 = some ctxX ∧
     ctxX.ueid = 7 ∧
     emm_data_context_get (emm_proc_attach_complete dX 7 ⟨2, [7, 8]⟩ none
         envX EsmSapErr.success).2.1 7 =
       some { ctxX with
              T3450 := { ctxX.T3450 with id := NAS_TIMER_INACTIVE_ID },
              guti_is_new := false, old_guti := none,
              is_attached := true }) := by
  refine ⟨⟨by decide,
           claim_C10_is_attached_protocol.1 dEmptyX ctxNoGutiX 7
             AttachType.eps 0 none (some imsiX) none 0 0 0 0 0 0 0 0
             OctetString.empty cfgX 4 (by decide)⟩,
          ⟨by decide,
           claim_C10_is_attached_protocol.2.1 dEmptyX dEmptyX ctxNoGutiX 7
             AttachType.eps 0 none (some imsiX) none 0 0 0 0 0 0 0 0
             OctetString.empty cfgX envX 4 _ (by decide) (by decide)⟩,
          by decide, by decide, by decide,
          (claim_C10_is_attached_protocol.2.2 dX 7 ⟨2, [7, 8]⟩ none envX
             EsmSapErr.success ctxX (by decide) (by decide) (by decide)).1
            ⟨by decide, by decide⟩⟩

end Attach
